import Mathlib

/-!
Shallow embedding of the Cast telemetry engine
(`media/cast/logging/stats_event_subscriber.cc`) and of the frame-id
wrap helper (`media/cast/net/cast_transport_defines.h`), together with
theorems settling the specification claims about them.

Modelling conventions:
* `base::TimeTicks` and `base::TimeDelta` are modelled as integers counting
  milliseconds; a null `TimeTicks` is the value `0`, matching `is_null()`.
* C++ `int64` division truncates toward zero; it is modelled by `Int.tdiv`
  (every division performed by this code acts on non-negative operands, so
  truncation and flooring coincide there).
* `uint32` arithmetic is modelled on `Nat` with explicit `% 2 ^ 32`.
* `std::map` is modelled as an association list kept sorted by key via the
  operations the code performs: `insert` keeps an existing entry untouched,
  `begin()` is the head, `erase(begin())` drops the head.  The composite
  packet key `(rtp_timestamp, packet_id)` is encoded as
  `rtp_timestamp * 65536 + packet_id`; since `packet_id` is a `uint16`,
  numeric order of the encoding is exactly lexicographic order of the pair.
* The constant `kMaxFrameInfoMapSize` is declared in
  `stats_event_subscriber.h`, which is not part of the sources; every
  function that needs it takes the capacity `M` as an explicit parameter.
* The clock-offset estimator is an external collaborator; each engine call
  takes the estimator's current answer (`none` for failure, or the pair of
  bounds) as an explicit argument.
-/

set_option autoImplicit false

namespace MediaCast

/-- Event kinds (`CastLoggingEvent`), restricted to the constructors used by
`StatsEventSubscriber`. -/
inductive CastLoggingEvent where
  | FRAME_CAPTURE_BEGIN
  | FRAME_CAPTURE_END
  | FRAME_ENCODED
  | FRAME_ACK_SENT
  | FRAME_DECODED
  | FRAME_PLAYOUT
  | PACKET_SENT_TO_NETWORK
  | PACKET_RECEIVED
  | PACKET_RETRANSMITTED
  | PACKET_RTX_REJECTED
  deriving DecidableEq

/-- `EventMediaType`. -/
inductive EventMediaType where
  | AUDIO_EVENT
  | VIDEO_EVENT
  deriving DecidableEq

open CastLoggingEvent EventMediaType

/-- `IsReceiverEvent` from the anonymous namespace of
`stats_event_subscriber.cc`. -/
def IsReceiverEvent (event : CastLoggingEvent) : Bool :=
  event = FRAME_DECODED || event = FRAME_PLAYOUT ||
  event = FRAME_ACK_SENT || event = PACKET_RECEIVED

/-- `media::cast::FrameEvent`, with times in integer milliseconds. -/
structure FrameEvent where
  timestamp : Int
  type : CastLoggingEvent
  media_type : EventMediaType
  rtp_timestamp : Nat
  size : Int
  delay_delta : Int
  deriving DecidableEq

/-- `media::cast::PacketEvent`, with times in integer milliseconds. -/
structure PacketEvent where
  timestamp : Int
  type : CastLoggingEvent
  media_type : EventMediaType
  rtp_timestamp : Nat
  packet_id : Nat
  size : Int
  deriving DecidableEq

/-! ### Association-list model of `std::map` -/

/-- Lookup (`map::find`). -/
def mapFind {α : Type} : List (Nat × α) → Nat → Option α
  | [], _ => none
  | (k', v) :: rest, k => if k = k' then some v else mapFind rest k

/-- Ordered insert (`map::insert`): keeps the existing entry when the key is
already present, exactly like `std::map::insert`. -/
def mapInsert {α : Type} : List (Nat × α) → Nat → α → List (Nat × α)
  | [], k, v => [(k, v)]
  | (k', v') :: rest, k, v =>
      if k < k' then (k, v) :: (k', v') :: rest
      else if k = k' then (k', v') :: rest
      else (k', v') :: mapInsert rest k v

/-- In-place update through a found iterator (`it->second = ...`). -/
def mapUpdate {α : Type} : List (Nat × α) → Nat → (α → α) → List (Nat × α)
  | [], _, _ => []
  | (k', v) :: rest, k, f =>
      if k = k' then (k', f v) :: rest else (k', v) :: mapUpdate rest k f

/-- Erase by key (`map::erase(key)` / `map::erase(it)` on a unique-key map). -/
def mapErase {α : Type} (m : List (Nat × α)) (k : Nat) : List (Nat × α) :=
  m.filter (fun p => p.1 != k)

/-! ### `StatsEventSubscriber::SimpleHistogram` -/

/-- Increment the `i`-th element of a list of counters; out-of-range indices
leave the list unchanged (the C++ code asserts in-range before writing). -/
def incNth : List Nat → Nat → List Nat
  | [], _ => []
  | x :: xs, 0 => (x + 1) :: xs
  | x :: xs, n + 1 => x :: incNth xs n

/-- `SimpleHistogram`: bounded fixed-width histogram with an underflow bucket
at index `0` and an overflow bucket at the last index. -/
structure SimpleHistogram where
  min : Int
  max : Int
  width : Int
  buckets : List Nat
  deriving DecidableEq

/-- Constructor `SimpleHistogram(min, max, width)`: bucket count
`(max - min) / width + 2`, all counts zero. -/
def mkSimpleHistogram (min max width : Int) : SimpleHistogram :=
  { min := min, max := max, width := width,
    buckets := List.replicate ((max - min).tdiv width + 2).toNat 0 }

/-- `SimpleHistogram::Add`. -/
def SimpleHistogram.Add (h : SimpleHistogram) (sample : Int) : SimpleHistogram :=
  if sample < h.min then
    { h with buckets := incNth h.buckets 0 }
  else if h.max ≤ sample then
    { h with buckets := incNth h.buckets (h.buckets.length - 1) }
  else
    { h with buckets := incNth h.buckets (1 + (sample - h.min).tdiv h.width).toNat }

/-- `SimpleHistogram::Reset`: `buckets_.assign(buckets_.size(), 0)`. -/
def SimpleHistogram.Reset (h : SimpleHistogram) : SimpleHistogram :=
  { h with buckets := List.replicate h.buckets.length 0 }

/-! ### `FrameIdWrapHelper` (`cast_transport_defines.h`) -/

/-- The three-zone range of `FrameIdWrapHelper`. -/
inductive Range where
  | kLowRange
  | kMiddleRange
  | kHighRange
  deriving DecidableEq

def kLowRangeThreshold : Nat := 63

def kHighRangeThreshold : Nat := 192

def kStartFrameId : Nat := 4294967295

/-- State of `FrameIdWrapHelper`; `frame_id_wrap_count` is a `uint32`
(invariantly `< 2 ^ 32`). -/
structure FrameIdWrapHelper where
  first : Bool
  frame_id_wrap_count : Nat
  range : Range
  deriving DecidableEq

/-- The `FrameIdWrapHelper()` constructor. -/
def FrameIdWrapHelper.init : FrameIdWrapHelper :=
  { first := true, frame_id_wrap_count := 0, range := Range.kLowRange }

/-- `FrameIdWrapHelper::MapTo32bitsFrameId`, returning the 32-bit id and the
updated helper state.  The `--wrap_count` on a `uint32` is modelled as
addition of `2 ^ 32 - 1` modulo `2 ^ 32`, and `(wrap_count << 8) + v` as
`(wrap_count * 256 + v) % 2 ^ 32`. -/
def FrameIdWrapHelper.MapTo32bitsFrameId (h : FrameIdWrapHelper)
    (over_the_wire_frame_id : Nat) : Nat × FrameIdWrapHelper :=
  if h.first = true ∧ over_the_wire_frame_id = 255 then
    (kStartFrameId, { h with first := false })
  else
    let h0 : FrameIdWrapHelper := { h with first := false }
    match h0.range with
    | Range.kLowRange =>
        let h1 := if kLowRangeThreshold < over_the_wire_frame_id ∧
                     over_the_wire_frame_id < kHighRangeThreshold then
                    { h0 with range := Range.kMiddleRange }
                  else h0
        let wrap_count := if kHighRangeThreshold ≤ over_the_wire_frame_id then
                            (h0.frame_id_wrap_count + (2 ^ 32 - 1)) % 2 ^ 32
                          else h0.frame_id_wrap_count
        ((wrap_count * 256 + over_the_wire_frame_id) % 2 ^ 32, h1)
    | Range.kMiddleRange =>
        let h1 := if kHighRangeThreshold ≤ over_the_wire_frame_id then
                    { h0 with range := Range.kHighRange }
                  else h0
        ((h0.frame_id_wrap_count * 256 + over_the_wire_frame_id) % 2 ^ 32, h1)
    | Range.kHighRange =>
        if over_the_wire_frame_id ≤ kLowRangeThreshold then
          let w := (h0.frame_id_wrap_count + 1) % 2 ^ 32
          ((w * 256 + over_the_wire_frame_id) % 2 ^ 32,
           { h0 with range := Range.kLowRange, frame_id_wrap_count := w })
        else
          ((h0.frame_id_wrap_count * 256 + over_the_wire_frame_id) % 2 ^ 32, h0)

/-- Feed a list of wire values through the helper, collecting the ids. -/
def FrameIdWrapHelper.runSeq (h : FrameIdWrapHelper) :
    List Nat → List Nat × FrameIdWrapHelper
  | [] => ([], h)
  | v :: vs =>
      let p := h.MapTo32bitsFrameId v
      let r := p.2.runSeq vs
      (p.1 :: r.1, r.2)

/-! ### `StatsEventSubscriber` state -/

/-- `StatsEventSubscriber::FrameLogStats`. -/
structure FrameLogStats where
  event_counter : Nat
  sum_size : Int
  sum_delay : Int
  deriving DecidableEq

/-- `StatsEventSubscriber::PacketLogStats`. -/
structure PacketLogStats where
  event_counter : Nat
  sum_size : Int
  deriving DecidableEq

/-- `StatsEventSubscriber::FrameInfo`; each time field is `0` when unset
(`is_null()`). -/
structure FrameInfo where
  capture_time : Int
  capture_end_time : Int
  encode_time : Int
  encoded : Bool
  deriving DecidableEq

/-- The `FrameInfo()` default constructor. -/
def FrameInfo.mkDefault : FrameInfo :=
  { capture_time := 0, capture_end_time := 0, encode_time := 0, encoded := false }

/-- The five histograms held in `histograms_`. -/
structure Histograms where
  capture_latency : SimpleHistogram
  encode_latency : SimpleHistogram
  packet_latency : SimpleHistogram
  frame_latency : SimpleHistogram
  playout_delay : SimpleHistogram
  deriving DecidableEq

def kMaxLatencyBucketMs : Int := 800

def kBucketWidthMs : Int := 20

def kMaxPacketEventTimeMapSize : Nat := 1000

/-- `StatsEventSubscriber::InitHistograms`. -/
def InitHistograms : Histograms :=
  { capture_latency := mkSimpleHistogram 0 kMaxLatencyBucketMs kBucketWidthMs,
    encode_latency := mkSimpleHistogram 0 kMaxLatencyBucketMs kBucketWidthMs,
    packet_latency := mkSimpleHistogram 0 kMaxLatencyBucketMs kBucketWidthMs,
    frame_latency := mkSimpleHistogram 0 kMaxLatencyBucketMs kBucketWidthMs,
    playout_delay := mkSimpleHistogram 0 kMaxLatencyBucketMs kBucketWidthMs }

/-- `histograms_[CAPTURE_LATENCY_MS_HISTO]->Add(x)`. -/
def Histograms.addCapture (H : Histograms) (x : Int) : Histograms :=
  { H with capture_latency := H.capture_latency.Add x }

/-- `histograms_[ENCODE_LATENCY_MS_HISTO]->Add(x)`. -/
def Histograms.addEncode (H : Histograms) (x : Int) : Histograms :=
  { H with encode_latency := H.encode_latency.Add x }

/-- `histograms_[PACKET_LATENCY_MS_HISTO]->Add(x)`. -/
def Histograms.addPacket (H : Histograms) (x : Int) : Histograms :=
  { H with packet_latency := H.packet_latency.Add x }

/-- `histograms_[FRAME_LATENCY_MS_HISTO]->Add(x)`. -/
def Histograms.addFrame (H : Histograms) (x : Int) : Histograms :=
  { H with frame_latency := H.frame_latency.Add x }

/-- `histograms_[PLAYOUT_DELAY_MS_HISTO]->Add(x)`. -/
def Histograms.addPlayout (H : Histograms) (x : Int) : Histograms :=
  { H with playout_delay := H.playout_delay.Add x }

/-- `Histograms` pointwise `Reset`, as performed by
`StatsEventSubscriber::Reset`. -/
def Histograms.ResetAll (H : Histograms) : Histograms :=
  { capture_latency := H.capture_latency.Reset,
    encode_latency := H.encode_latency.Reset,
    packet_latency := H.packet_latency.Reset,
    frame_latency := H.frame_latency.Reset,
    playout_delay := H.playout_delay.Reset }

/-- The mutable state of `StatsEventSubscriber`. -/
structure StatsEventSubscriber where
  event_media_type : EventMediaType
  frame_stats : CastLoggingEvent → Option FrameLogStats
  packet_stats : CastLoggingEvent → Option PacketLogStats
  total_network_latency : Int
  network_latency_datapoints : Nat
  total_e2e_latency : Int
  e2e_latency_datapoints : Nat
  num_frames_dropped_by_encoder : Nat
  num_frames_late : Nat
  recent_frame_infos : List (Nat × FrameInfo)
  packet_sent_times : List (Nat × (Int × CastLoggingEvent))
  start_time : Int
  last_response_received_time : Int
  first_event_time : Int
  last_event_time : Int
  histograms : Histograms

namespace StatsEventSubscriber

/-- The `StatsEventSubscriber` constructor: all counters zero, all maps
empty, `start_time_ = clock_->NowTicks()`, histograms initialised. -/
def init (event_media_type : EventMediaType) (now : Int) : StatsEventSubscriber :=
  { event_media_type := event_media_type,
    frame_stats := fun _ => none,
    packet_stats := fun _ => none,
    total_network_latency := 0,
    network_latency_datapoints := 0,
    total_e2e_latency := 0,
    e2e_latency_datapoints := 0,
    num_frames_dropped_by_encoder := 0,
    num_frames_late := 0,
    recent_frame_infos := [],
    packet_sent_times := [],
    start_time := now,
    last_response_received_time := 0,
    first_event_time := 0,
    last_event_time := 0,
    histograms := InitHistograms }

/-- `GetReceiverOffset`: midpoint of the estimator's bounds, or failure. -/
def GetReceiverOffset (bounds : Option (Int × Int)) : Option Int :=
  match bounds with
  | none => none
  | some (lo, hi) => some ((lo + hi).tdiv 2)

/-- Shared tail of `UpdateFirstLastEventTime`, after the timestamp has been
converted to sender-clock terms where required. -/
def setFirstLast (s : StatsEventSubscriber) (t : Int) : StatsEventSubscriber :=
  { s with
    first_event_time := if s.first_event_time = 0 then t else Min.min s.first_event_time t,
    last_event_time := if s.last_event_time = 0 then t else Max.max s.last_event_time t }

/-- `StatsEventSubscriber::UpdateFirstLastEventTime`. -/
def UpdateFirstLastEventTime (s : StatsEventSubscriber) (timestamp : Int)
    (is_receiver_event : Bool) (bounds : Option (Int × Int)) :
    StatsEventSubscriber :=
  if is_receiver_event then
    match GetReceiverOffset bounds with
    | none => s
    | some off => s.setFirstLast (timestamp - off)
  else
    s.setFirstLast timestamp

/-- `StatsEventSubscriber::MaybeInsertFrameInfo`; `M` is
`kMaxFrameInfoMapSize` (declared in the header, which is not among the
sources). -/
def MaybeInsertFrameInfo (M : Nat) (s : StatsEventSubscriber)
    (rtp_timestamp : Nat) (frame_info : FrameInfo) : StatsEventSubscriber :=
  let headLt : Bool :=
    match s.recent_frame_infos with
    | (k, _) :: _ => decide (rtp_timestamp < k)
    | [] => false
  if s.recent_frame_infos.length = M ∧ headLt = true then
    s
  else
    let m := mapInsert s.recent_frame_infos rtp_timestamp frame_info
    if M ≤ m.length then
      match m with
      | (_, v) :: rest =>
          { s with recent_frame_infos := rest,
                   num_frames_dropped_by_encoder :=
                     if v.encode_time = 0 then s.num_frames_dropped_by_encoder + 1
                     else s.num_frames_dropped_by_encoder }
      | [] => { s with recent_frame_infos := [] }
    else
      { s with recent_frame_infos := m }

/-- `StatsEventSubscriber::RecordFrameCaptureTime`. -/
def RecordFrameCaptureTime (M : Nat) (s : StatsEventSubscriber)
    (frame_event : FrameEvent) : StatsEventSubscriber :=
  s.MaybeInsertFrameInfo M frame_event.rtp_timestamp
    { capture_time := frame_event.timestamp, capture_end_time := 0,
      encode_time := 0, encoded := false }

/-- `StatsEventSubscriber::RecordCaptureLatency`. -/
def RecordCaptureLatency (s : StatsEventSubscriber) (frame_event : FrameEvent) :
    StatsEventSubscriber :=
  match mapFind s.recent_frame_infos frame_event.rtp_timestamp with
  | none => s
  | some fi =>
      { s with
        histograms :=
          if fi.capture_time ≠ 0 then
            s.histograms.addCapture (fi.capture_time - frame_event.timestamp)
          else s.histograms,
        recent_frame_infos :=
          (mapUpdate s.recent_frame_infos frame_event.rtp_timestamp
            (fun v => { v with capture_end_time := frame_event.timestamp })) }

/-- `StatsEventSubscriber::RecordEncodeLatency`. -/
def RecordEncodeLatency (M : Nat) (s : StatsEventSubscriber)
    (frame_event : FrameEvent) : StatsEventSubscriber :=
  match mapFind s.recent_frame_infos frame_event.rtp_timestamp with
  | none =>
      s.MaybeInsertFrameInfo M frame_event.rtp_timestamp
        { capture_time := 0, capture_end_time := 0,
          encode_time := frame_event.timestamp, encoded := false }
  | some fi =>
      { s with
        histograms :=
          if fi.capture_end_time ≠ 0 then
            s.histograms.addEncode (frame_event.timestamp - fi.capture_end_time)
          else s.histograms,
        recent_frame_infos :=
          (mapUpdate s.recent_frame_infos frame_event.rtp_timestamp
            (fun v => { v with encode_time := frame_event.timestamp })) }

/-- `StatsEventSubscriber::RecordFrameTxLatency`. -/
def RecordFrameTxLatency (s : StatsEventSubscriber) (frame_event : FrameEvent)
    (bounds : Option (Int × Int)) : StatsEventSubscriber :=
  match mapFind s.recent_frame_infos frame_event.rtp_timestamp with
  | none => s
  | some fi =>
      if fi.encode_time = 0 then s
      else
        match GetReceiverOffset bounds with
        | none => s
        | some off =>
            { s with histograms :=
                s.histograms.addFrame ((frame_event.timestamp - off) - fi.encode_time) }

/-- `StatsEventSubscriber::RecordE2ELatency`. -/
def RecordE2ELatency (s : StatsEventSubscriber) (frame_event : FrameEvent)
    (bounds : Option (Int × Int)) : StatsEventSubscriber :=
  match GetReceiverOffset bounds with
  | none => s
  | some off =>
      match mapFind s.recent_frame_infos frame_event.rtp_timestamp with
      | none => s
      | some fi =>
          { s with
            total_e2e_latency := s.total_e2e_latency +
              ((frame_event.timestamp + frame_event.delay_delta - off) -
                fi.capture_time),
            e2e_latency_datapoints := s.e2e_latency_datapoints + 1 }

/-- `StatsEventSubscriber::UpdateLastResponseTime`. -/
def UpdateLastResponseTime (s : StatsEventSubscriber) (receiver_time : Int)
    (bounds : Option (Int × Int)) : StatsEventSubscriber :=
  match GetReceiverOffset bounds with
  | none => s
  | some off => { s with last_response_received_time := receiver_time - off }

/-- Composite key `(rtp_timestamp, packet_id)` of `packet_sent_times_`,
encoded numerically (lexicographic for `packet_id < 65536`). -/
def packetKey (packet_event : PacketEvent) : Nat :=
  packet_event.rtp_timestamp * 65536 + packet_event.packet_id

/-- `StatsEventSubscriber::ErasePacketSentTime`. -/
def ErasePacketSentTime (s : StatsEventSubscriber) (packet_event : PacketEvent) :
    StatsEventSubscriber :=
  { s with packet_sent_times := mapErase s.packet_sent_times (packetKey packet_event) }

/-- `StatsEventSubscriber::RecordNetworkLatency`. -/
def RecordNetworkLatency (s : StatsEventSubscriber) (packet_event : PacketEvent)
    (bounds : Option (Int × Int)) : StatsEventSubscriber :=
  match GetReceiverOffset bounds with
  | none => s
  | some off =>
      let key := packetKey packet_event
      match mapFind s.packet_sent_times key with
      | none =>
          let m := mapInsert s.packet_sent_times key
            (packet_event.timestamp, packet_event.type)
          let m := if kMaxPacketEventTimeMapSize < m.length then m.tail else m
          { s with packet_sent_times := m }
      | some value =>
          let recorded_type := value.2
          if recorded_type = PACKET_SENT_TO_NETWORK ∧
             packet_event.type = PACKET_RECEIVED then
            let latency_delta := (packet_event.timestamp - off) - value.1
            { s with
              total_network_latency := s.total_network_latency + latency_delta,
              network_latency_datapoints := s.network_latency_datapoints + 1,
              histograms := s.histograms.addPacket latency_delta,
              packet_sent_times := mapErase s.packet_sent_times key }
          else if recorded_type = PACKET_RECEIVED ∧
             packet_event.type = PACKET_SENT_TO_NETWORK then
            let latency_delta := (value.1 - off) - packet_event.timestamp
            { s with
              total_network_latency := s.total_network_latency + latency_delta,
              network_latency_datapoints := s.network_latency_datapoints + 1,
              histograms := s.histograms.addPacket latency_delta,
              packet_sent_times := mapErase s.packet_sent_times key }
          else
            s

/-- The per-kind frame counter update at the top of `OnReceiveFrameEvent`
(insert-with-count-one or increment). -/
def frameStatsUpdate (s : StatsEventSubscriber) (frame_event : FrameEvent) :
    StatsEventSubscriber :=
  { s with frame_stats := fun t =>
      if t = frame_event.type then
        match s.frame_stats frame_event.type with
        | none =>
            some { event_counter := 1, sum_size := frame_event.size,
                   sum_delay := frame_event.delay_delta }
        | some st =>
            some { event_counter := st.event_counter + 1,
                   sum_size := st.sum_size + frame_event.size,
                   sum_delay := st.sum_delay + frame_event.delay_delta }
      else s.frame_stats t }

/-- The kind dispatch in the middle of `OnReceiveFrameEvent`. -/
def frameDispatch (M : Nat) (s : StatsEventSubscriber)
    (frame_event : FrameEvent) (bounds : Option (Int × Int)) :
    StatsEventSubscriber :=
  match frame_event.type with
  | FRAME_CAPTURE_BEGIN => s.RecordFrameCaptureTime M frame_event
  | FRAME_CAPTURE_END => s.RecordCaptureLatency frame_event
  | FRAME_ENCODED => s.RecordEncodeLatency M frame_event
  | FRAME_ACK_SENT => s.RecordFrameTxLatency frame_event bounds
  | FRAME_PLAYOUT =>
      let sa := s.RecordE2ELatency frame_event bounds
      { sa with
        histograms := sa.histograms.addPlayout frame_event.delay_delta,
        num_frames_late :=
          if frame_event.delay_delta ≤ 0 then sa.num_frames_late + 1
          else sa.num_frames_late }
  | _ => s

/-- `StatsEventSubscriber::OnReceiveFrameEvent`. -/
def OnReceiveFrameEvent (M : Nat) (s : StatsEventSubscriber)
    (frame_event : FrameEvent) (bounds : Option (Int × Int)) :
    StatsEventSubscriber :=
  if frame_event.media_type ≠ s.event_media_type then s
  else
    let s2 := (s.frameStatsUpdate frame_event).UpdateFirstLastEventTime
      frame_event.timestamp (IsReceiverEvent frame_event.type) bounds
    let s3 := frameDispatch M s2 frame_event bounds
    if IsReceiverEvent frame_event.type then
      s3.UpdateLastResponseTime frame_event.timestamp bounds
    else s3

/-- The per-kind packet counter update at the top of
`OnReceivePacketEvent`. -/
def packetStatsUpdate (s : StatsEventSubscriber) (packet_event : PacketEvent) :
    StatsEventSubscriber :=
  { s with packet_stats := fun t =>
      if t = packet_event.type then
        match s.packet_stats packet_event.type with
        | none =>
            some { event_counter := 1, sum_size := packet_event.size }
        | some st =>
            some { event_counter := st.event_counter + 1,
                   sum_size := st.sum_size + packet_event.size }
      else s.packet_stats t }

/-- The kind dispatch in the middle of `OnReceivePacketEvent`. -/
def packetDispatch (s : StatsEventSubscriber) (packet_event : PacketEvent)
    (bounds : Option (Int × Int)) : StatsEventSubscriber :=
  if packet_event.type = PACKET_SENT_TO_NETWORK ∨
     packet_event.type = PACKET_RECEIVED then
    s.RecordNetworkLatency packet_event bounds
  else if packet_event.type = PACKET_RETRANSMITTED then
    s.ErasePacketSentTime packet_event
  else s

/-- `StatsEventSubscriber::OnReceivePacketEvent`. -/
def OnReceivePacketEvent (s : StatsEventSubscriber)
    (packet_event : PacketEvent) (bounds : Option (Int × Int)) :
    StatsEventSubscriber :=
  if packet_event.media_type ≠ s.event_media_type then s
  else
    let s2 := (s.packetStatsUpdate packet_event).UpdateFirstLastEventTime
      packet_event.timestamp (IsReceiverEvent packet_event.type) bounds
    let s3 := packetDispatch s2 packet_event bounds
    if IsReceiverEvent packet_event.type then
      s3.UpdateLastResponseTime packet_event.timestamp bounds
    else s3

/-- `StatsEventSubscriber::Reset`. -/
def Reset (s : StatsEventSubscriber) (now : Int) : StatsEventSubscriber :=
  { s with
    frame_stats := fun _ => none,
    packet_stats := fun _ => none,
    total_network_latency := 0,
    network_latency_datapoints := 0,
    total_e2e_latency := 0,
    e2e_latency_datapoints := 0,
    num_frames_dropped_by_encoder := 0,
    num_frames_late := 0,
    recent_frame_infos := [],
    packet_sent_times := [],
    start_time := now,
    last_response_received_time := 0,
    histograms := s.histograms.ResetAll,
    first_event_time := 0,
    last_event_time := 0 }

/-- `StatsEventSubscriber::PopulateFrameCountStat`: the count is emitted only
when a counter entry for the event kind exists. -/
def PopulateFrameCountStat (s : StatsEventSubscriber)
    (event : CastLoggingEvent) : Option Nat :=
  match s.frame_stats event with
  | none => none
  | some st => some st.event_counter

/-- `StatsEventSubscriber::PopulatePacketCountStat`. -/
def PopulatePacketCountStat (s : StatsEventSubscriber)
    (event : CastLoggingEvent) : Option Nat :=
  match s.packet_stats event with
  | none => none
  | some st => some st.event_counter

/-- The `retransmitted_count` local of `PopulatePacketLossPercentageStat`:
`0` when no `PACKET_RETRANSMITTED` counter entry exists. -/
def retransmittedCount (s : StatsEventSubscriber) : Nat :=
  match s.packet_stats PACKET_RETRANSMITTED with
  | none => 0
  | some st => st.event_counter

/-- `StatsEventSubscriber::PopulatePacketLossPercentageStat`: emitted only
when a `PACKET_SENT_TO_NETWORK` counter entry exists; the value is
`retransmitted_count / (sent_count + retransmitted_count)` as an exact
rational. -/
def PopulatePacketLossPercentageStat (s : StatsEventSubscriber) : Option ℚ :=
  match s.packet_stats PACKET_SENT_TO_NETWORK with
  | none => none
  | some sent_stats =>
      some ((s.retransmittedCount : ℚ) /
        ((sent_stats.event_counter : ℚ) + (s.retransmittedCount : ℚ)))

end StatsEventSubscriber

/-- An ingested event together with the offset estimator's answer during
that call. -/
inductive EvIn where
  | fr (e : FrameEvent) (bounds : Option (Int × Int))
  | pk (e : PacketEvent) (bounds : Option (Int × Int))

/-- One engine step. -/
def stepEvent (M : Nat) (s : StatsEventSubscriber) : EvIn → StatsEventSubscriber
  | EvIn.fr e b => s.OnReceiveFrameEvent M e b
  | EvIn.pk e b => s.OnReceivePacketEvent e b

/-- Feed a list of events to the engine. -/
def runEvents (M : Nat) (s : StatsEventSubscriber) (es : List EvIn) :
    StatsEventSubscriber :=
  es.foldl (stepEvent M) s

/-- Fold `MaybeInsertFrameInfo` over a list of `(rtp_timestamp, FrameInfo)`
pairs. -/
def insertAll (M : Nat) (s : StatsEventSubscriber)
    (l : List (Nat × FrameInfo)) : StatsEventSubscriber :=
  l.foldl (fun s' p => s'.MaybeInsertFrameInfo M p.1 p.2) s

/-- The bucket definition of a histogram: `(min, max, width)` and the bucket
count.  `SimpleHistogram::Add` never changes it; `Reset` preserves it. -/
def SimpleHistogram.shape (h : SimpleHistogram) : Int × Int × Int × Nat :=
  (h.min, h.max, h.width, h.buckets.length)

/-- The bucket definitions of all five histograms. -/
def Histograms.shapes (H : Histograms) :
    (Int × Int × Int × Nat) × (Int × Int × Int × Nat) × (Int × Int × Int × Nat) ×
    (Int × Int × Int × Nat) × (Int × Int × Int × Nat) :=
  (H.capture_latency.shape, H.encode_latency.shape, H.packet_latency.shape,
   H.frame_latency.shape, H.playout_delay.shape)

/-- Well-formedness of a histogram as guaranteed by its constructor checks
(`CHECK_GT(buckets_.size(), 2u)`, `CHECK_EQ(0, (max_ - min_) % width_)`)
together with the bucket count established at construction. -/
def SimpleHistogram.WellFormed (h : SimpleHistogram) : Prop :=
  0 < h.width ∧ (h.max - h.min).tmod h.width = 0 ∧ h.min < h.max ∧
  h.buckets.length = ((h.max - h.min).tdiv h.width + 2).toNat

/-- Number of entries in a frame-info list whose `encode_time` was never set:
exactly the entries whose eviction increments the dropped-by-encoder
counter. -/
def countNullEncode (l : List (Nat × FrameInfo)) : Nat :=
  l.countP (fun p => p.2.encode_time == 0)

/-- Invariant of the per-kind packet counters: every existing entry has been
counted at least once. -/
def PacketStatsPos (s : StatsEventSubscriber) : Prop :=
  ∀ t st, s.packet_stats t = some st → 1 ≤ st.event_counter

/-- The `FrameInfo` that `RecordFrameCaptureTime` builds: only
`capture_time` set. -/
def captureInfo (t : Int) : FrameInfo :=
  { capture_time := t, capture_end_time := 0, encode_time := 0, encoded := false }

/-- Concrete eviction scenario: four capture-begin frame infos with strictly
increasing keys inserted into an empty cache of capacity `3`. -/
def evictedFourState : StatsEventSubscriber :=
  insertAll 3 (StatsEventSubscriber.init EventMediaType.VIDEO_EVENT 0)
    [(10, captureInfo 1), (20, captureInfo 2), (30, captureInfo 3),
     (40, captureInfo 4)]

/-- A `FRAME_ENCODED` event for frame `100` observed before any capture
event (so the cache entry it creates has `capture_time` unset). -/
def encodedFirstEvent : FrameEvent :=
  { timestamp := 5, type := CastLoggingEvent.FRAME_ENCODED,
    media_type := EventMediaType.VIDEO_EVENT, rtp_timestamp := 100,
    size := 1000, delay_delta := 0 }

/-- A `FRAME_PLAYOUT` event for the same frame `100`. -/
def playoutEvent : FrameEvent :=
  { timestamp := 50, type := CastLoggingEvent.FRAME_PLAYOUT,
    media_type := EventMediaType.VIDEO_EVENT, rtp_timestamp := 100,
    size := 0, delay_delta := 2 }

/-- A capture-begin event for frame `100` at time `7`. -/
def captureBeginEvent : FrameEvent :=
  { timestamp := 7, type := CastLoggingEvent.FRAME_CAPTURE_BEGIN,
    media_type := EventMediaType.VIDEO_EVENT, rtp_timestamp := 100,
    size := 0, delay_delta := 0 }

/-- The matching capture-end event at the later time `9`. -/
def captureEndEvent : FrameEvent :=
  { timestamp := 9, type := CastLoggingEvent.FRAME_CAPTURE_END,
    media_type := EventMediaType.VIDEO_EVENT, rtp_timestamp := 100,
    size := 0, delay_delta := 0 }

/-- A sent-to-network event for packet `(7, 2)`. -/
def packetSentEvent : PacketEvent :=
  { timestamp := 3, type := CastLoggingEvent.PACKET_SENT_TO_NETWORK,
    media_type := EventMediaType.VIDEO_EVENT, rtp_timestamp := 7,
    packet_id := 2, size := 100 }

/-- A retransmission of the same packet `(7, 2)`. -/
def packetRetransmitEvent : PacketEvent :=
  { timestamp := 9, type := CastLoggingEvent.PACKET_RETRANSMITTED,
    media_type := EventMediaType.VIDEO_EVENT, rtp_timestamp := 7,
    packet_id := 2, size := 100 }

/-- The matching received event for packet `(7, 2)`. -/
def packetReceivedEvent : PacketEvent :=
  { timestamp := 8, type := CastLoggingEvent.PACKET_RECEIVED,
    media_type := EventMediaType.VIDEO_EVENT, rtp_timestamp := 7,
    packet_id := 2, size := 100 }

end MediaCast

namespace MediaCast

open CastLoggingEvent EventMediaType

/-! ## Basic lemmas about the list/map model -/

theorem length_incNth (l : List Nat) (i : Nat) : (incNth l i).length = l.length := by
  induction l generalizing i with
  | nil => rfl
  | cons x xs ih =>
      cases i with
      | zero => rfl
      | succ n => simp [incNth, ih]

theorem sum_incNth (l : List Nat) (i : Nat) (hi : i < l.length) :
    (incNth l i).sum = l.sum + 1 := by
  induction l generalizing i with
  | nil => simp at hi
  | cons x xs ih =>
      cases i with
      | zero => simp [incNth]; omega
      | succ n =>
          simp only [incNth, List.sum_cons]
          rw [ih n (by simpa using hi)]
          omega

theorem mapInsert_gt {α : Type} (m : List (Nat × α)) (k : Nat) (v : α)
    (hk : ∀ x ∈ m, x.1 < k) : mapInsert m k v = m ++ [(k, v)] := by
  induction m with
  | nil => rfl
  | cons p rest ih =>
      have h1 : p.1 < k := hk p (by simp)
      simp only [mapInsert]
      rw [if_neg (by omega), if_neg (by omega)]
      simp [ih (fun x hx => hk x (by simp [hx]))]

theorem mapFind_insert_self {α : Type} (m : List (Nat × α)) (k : Nat) (v : α)
    (hfresh : mapFind m k = none) : mapFind (mapInsert m k v) k = some v := by
  induction m with
  | nil => simp [mapInsert, mapFind]
  | cons p rest ih =>
      obtain ⟨k', v'⟩ := p
      simp only [mapFind] at hfresh
      by_cases hkk : k = k'
      · simp [hkk] at hfresh
      · simp only [mapInsert]
        by_cases hlt : k < k'
        · simp [hlt, mapFind]
        · rw [if_neg hlt, if_neg hkk]
          simp only [mapFind, if_neg hkk]
          exact ih (by simpa [hkk] using hfresh)

theorem length_mapInsert {α : Type} (m : List (Nat × α)) (k : Nat) (v : α)
    (hfresh : mapFind m k = none) :
    (mapInsert m k v).length = m.length + 1 := by
  induction m with
  | nil => rfl
  | cons p rest ih =>
      obtain ⟨k', v'⟩ := p
      simp only [mapFind] at hfresh
      by_cases hkk : k = k'
      · simp [hkk] at hfresh
      · simp only [mapInsert]
        by_cases hlt : k < k'
        · simp [hlt]
        · rw [if_neg hlt, if_neg hkk]
          simp only [List.length_cons]
          rw [ih (by simpa [hkk] using hfresh)]

theorem mapFind_erase {α : Type} (m : List (Nat × α)) (k : Nat) :
    mapFind (mapErase m k) k = none := by
  induction m with
  | nil => rfl
  | cons p rest ih =>
      obtain ⟨k', v'⟩ := p
      by_cases hkk : k' = k
      · have hne : ((k', v').1 != k) = false := by simp [hkk]
        simp only [mapErase, List.filter, hne]
        exact ih
      · have hne : ((k', v').1 != k) = true := by simpa using hkk
        simp only [mapErase, List.filter, hne]
        simp only [mapFind]
        rw [if_neg (fun h => hkk h.symm)]
        exact ih

theorem length_mapErase_le {α : Type} (m : List (Nat × α)) (k : Nat) :
    (mapErase m k).length ≤ m.length :=
  List.length_filter_le _ m

theorem length_mapErase_lt {α : Type} (m : List (Nat × α)) (k : Nat) (v : α)
    (hmem : mapFind m k = some v) : (mapErase m k).length < m.length := by
  induction m with
  | nil => simp [mapFind] at hmem
  | cons p rest ih =>
      obtain ⟨k', v'⟩ := p
      simp only [mapFind] at hmem
      by_cases hkk : k = k'
      · have hne : ((k', v').1 != k) = false := by simp [hkk]
        simp only [mapErase, List.filter, hne, List.length_cons]
        have := length_mapErase_le rest k
        simp only [mapErase] at this
        omega
      · rw [if_neg hkk] at hmem
        have hne : ((k', v').1 != k) = true := by simpa using fun h => hkk h.symm
        simp only [mapErase, List.filter, hne, List.length_cons]
        have := ih hmem
        simp only [mapErase] at this
        omega

/-! ## C2 / C10: the Frame Identity Resolver -/

/-- C2: per-call behaviour of `FrameIdWrapHelper::MapTo32bitsFrameId`.  On
the very first call a wire value `0xFF` yields the sentinel `0xFFFFFFFF`
(`kStartFrameId`) without running the state machine; otherwise, with stored
wrap count `w`: in zone Low a value strictly between the thresholds moves
the zone to Middle, and a value `>= 192` uses the effective wrap count
`w - 1` for this sample only (stored count and zone unchanged); in Middle a
value `>= 192` moves the zone to High; in High a value `<= 63` moves the
zone to Low and increments both the stored and the effective wrap count;
the returned id is always `(effective_wrap_count << 8) + v` in `uint32`
arithmetic.  Moreover the startup sequence
`0xFF; 0, 50, 100, 150, 200, 250, 10, 60` yields the sentinel followed by
the strictly increasing ids `0, 50, 100, 150, 200, 250, 266, 316`, with the
single wrap-count increment happening at the `250 -> 10` transition. -/
theorem MapTo32bitsFrameId_spec (h : FrameIdWrapHelper) (v : Nat)
    (hw : h.frame_id_wrap_count < 2 ^ 32) :
    (h.first = true → (h.MapTo32bitsFrameId 255).1 = kStartFrameId ∧
      (h.MapTo32bitsFrameId 255).2 = { h with first := false }) ∧
    (¬(h.first = true ∧ v = 255) → h.range = Range.kLowRange →
      kLowRangeThreshold < v → v < kHighRangeThreshold →
      (h.MapTo32bitsFrameId v).1 = (h.frame_id_wrap_count * 256 + v) % 2 ^ 32 ∧
      (h.MapTo32bitsFrameId v).2 =
        { h with first := false, range := Range.kMiddleRange }) ∧
    (¬(h.first = true ∧ v = 255) → h.range = Range.kLowRange →
      kHighRangeThreshold ≤ v → 1 ≤ h.frame_id_wrap_count →
      (h.MapTo32bitsFrameId v).1 =
        ((h.frame_id_wrap_count - 1) * 256 + v) % 2 ^ 32 ∧
      (h.MapTo32bitsFrameId v).2 = { h with first := false }) ∧
    (¬(h.first = true ∧ v = 255) → h.range = Range.kMiddleRange →
      kHighRangeThreshold ≤ v →
      (h.MapTo32bitsFrameId v).1 = (h.frame_id_wrap_count * 256 + v) % 2 ^ 32 ∧
      (h.MapTo32bitsFrameId v).2 =
        { h with first := false, range := Range.kHighRange }) ∧
    (h.range = Range.kHighRange → v ≤ kLowRangeThreshold →
      h.frame_id_wrap_count + 1 < 2 ^ 32 →
      (h.MapTo32bitsFrameId v).1 =
        ((h.frame_id_wrap_count + 1) * 256 + v) % 2 ^ 32 ∧
      (h.MapTo32bitsFrameId v).2 =
        { h with first := false, range := Range.kLowRange,
                 frame_id_wrap_count := h.frame_id_wrap_count + 1 }) ∧
    ((FrameIdWrapHelper.init.MapTo32bitsFrameId 255).1 = kStartFrameId ∧
      ((FrameIdWrapHelper.init.MapTo32bitsFrameId 255).2.runSeq
          [0, 50, 100, 150, 200, 250, 10, 60]).1 =
        [0, 50, 100, 150, 200, 250, 266, 316] ∧
      List.Chain' (fun a b => a < b)
        ([0, 50, 100, 150, 200, 250, 266, 316] : List Nat) ∧
      ((FrameIdWrapHelper.init.MapTo32bitsFrameId 255).2.runSeq
          [0, 50, 100, 150, 200, 250]).2.frame_id_wrap_count = 0 ∧
      ((FrameIdWrapHelper.init.MapTo32bitsFrameId 255).2.runSeq
          [0, 50, 100, 150, 200, 250, 10]).2.frame_id_wrap_count = 1 ∧
      ((FrameIdWrapHelper.init.MapTo32bitsFrameId 255).2.runSeq
          [0, 50, 100, 150, 200, 250, 10, 60]).2.frame_id_wrap_count = 1) := by
  have hpow : (2 : Nat) ^ 32 = 4294967296 := by norm_num
  obtain ⟨f, w, r⟩ := h
  simp only at hw
  rw [hpow] at hw
  refine ⟨?_, ?_, ?_, ?_, ?_, ?_⟩
  · intro hf
    have hf' : f = true := hf
    subst hf'
    constructor <;> simp [FrameIdWrapHelper.MapTo32bitsFrameId]
  · intro hnf hr h1 h2
    have hr' : r = Range.kLowRange := hr
    subst hr'
    have h1' : 63 < v := h1
    have h2' : v < 192 := h2
    simp [FrameIdWrapHelper.MapTo32bitsFrameId, kLowRangeThreshold,
      kHighRangeThreshold, h1', h2', show v ≠ 255 by omega,
      show ¬(192 ≤ v) by omega]
  · intro hnf hr h1 hw1
    have hr' : r = Range.kLowRange := hr
    subst hr'
    have h1' : 192 ≤ v := h1
    have hw2 : 1 ≤ w := hw1
    cases f with
    | false =>
        simp [FrameIdWrapHelper.MapTo32bitsFrameId, kLowRangeThreshold,
          kHighRangeThreshold, h1', show ¬(63 < v ∧ v < 192) by omega]
        omega
    | true =>
        have hv : v ≠ 255 := fun hv => hnf ⟨rfl, hv⟩
        simp [FrameIdWrapHelper.MapTo32bitsFrameId, kLowRangeThreshold,
          kHighRangeThreshold, h1', hv, show ¬(63 < v ∧ v < 192) by omega]
        omega
  · intro hnf hr h1
    have hr' : r = Range.kMiddleRange := hr
    subst hr'
    have h1' : 192 ≤ v := h1
    cases f with
    | false =>
        simp [FrameIdWrapHelper.MapTo32bitsFrameId, kLowRangeThreshold,
          kHighRangeThreshold, h1']
    | true =>
        have hv : v ≠ 255 := fun hv => hnf ⟨rfl, hv⟩
        simp [FrameIdWrapHelper.MapTo32bitsFrameId, kLowRangeThreshold,
          kHighRangeThreshold, h1', hv]
  · intro hr h1 hw1
    have hr' : r = Range.kHighRange := hr
    subst hr'
    have h1' : v ≤ 63 := h1
    have hw1' : w + 1 < 2 ^ 32 := hw1
    rw [hpow] at hw1'
    simp [FrameIdWrapHelper.MapTo32bitsFrameId, kLowRangeThreshold,
      kHighRangeThreshold, h1', show v ≠ 255 by omega]
    constructor
    · omega
    · omega
  · refine ⟨by decide, by decide, by norm_num [List.chain'_cons], by decide,
      by decide, by decide⟩

/-- Witness for `MapTo32bitsFrameId_spec` at a concrete helper state and
wire value. -/
theorem MapTo32bitsFrameId_spec_witness :
    (({ first := false, frame_id_wrap_count := 2, range := Range.kMiddleRange
        : FrameIdWrapHelper }).MapTo32bitsFrameId 200).1 =
      (2 * 256 + 200) % 2 ^ 32 := by
  have h := MapTo32bitsFrameId_spec
    { first := false, frame_id_wrap_count := 2, range := Range.kMiddleRange }
    200 (by norm_num)
  exact (h.2.2.2.1 (by simp) rfl (by norm_num [kHighRangeThreshold])).1

/-- C10: in zone Low with stored wrap count `0`, a wire value
`192 <= v < 255` (in particular on the very first call) underflows the
effective wrap count from `0` to `2 ^ 32 - 1` in `uint32` modular
arithmetic — it is not clamped at zero — and the returned id equals
`(0xFFFFFF00 + v) % 2 ^ 32`, a value near the top of the 32-bit range,
while the stored wrap count stays `0`. -/
theorem MapTo32bitsFrameId_underflow (h : FrameIdWrapHelper) (v : Nat)
    (hr : h.range = Range.kLowRange) (hw : h.frame_id_wrap_count = 0)
    (hlo : 192 ≤ v) (hhi : v < 255) :
    (h.MapTo32bitsFrameId v).1 = (4294967040 + v) % 2 ^ 32 ∧
    (h.MapTo32bitsFrameId v).1 = 4294967040 + v ∧
    (h.MapTo32bitsFrameId v).2.frame_id_wrap_count = 0 ∧
    (h.frame_id_wrap_count + (2 ^ 32 - 1)) % 2 ^ 32 = 2 ^ 32 - 1 := by
  obtain ⟨f, w, r⟩ := h
  have hr' : r = Range.kLowRange := hr
  subst hr'
  have hw' : w = 0 := hw
  subst hw'
  simp [FrameIdWrapHelper.MapTo32bitsFrameId, kLowRangeThreshold,
    kHighRangeThreshold, hlo, show ¬(63 < v ∧ v < 192) by omega,
    show v ≠ 255 by omega]
  omega

/-- Witness for `MapTo32bitsFrameId_underflow`: the very first call with
wire value `200`. -/
theorem MapTo32bitsFrameId_underflow_witness :
    (FrameIdWrapHelper.init.MapTo32bitsFrameId 200).1 = 4294967040 + 200 :=
  (MapTo32bitsFrameId_underflow FrameIdWrapHelper.init 200 rfl rfl (by norm_num) (by norm_num)).2.1

/-- `Add` preserves histogram well-formedness (it only touches counts). -/
theorem SimpleHistogram.wellFormed_Add (h : SimpleHistogram) (s : Int)
    (hwf : h.WellFormed) : (h.Add s).WellFormed := by
  unfold SimpleHistogram.Add
  repeat' split
  all_goals simpa [SimpleHistogram.WellFormed, length_incNth] using hwf

/-- For an in-range sample the interior bucket index `1 + (s - min)/width`
is strictly below the overflow bucket (uses `width ∣ (max - min)`). -/
theorem SimpleHistogram.interior_index_lt (h : SimpleHistogram) (s : Int)
    (hwf : h.WellFormed) (hmin : h.min ≤ s) (hmax : s < h.max) :
    (1 + (s - h.min).tdiv h.width).toNat < h.buckets.length - 1 := by
  obtain ⟨hw, hmod, hlt, hlen⟩ := hwf
  have h0 : (0 : Int) ≤ s - h.min := by omega
  have hlt2 : s - h.min < h.max - h.min := by omega
  have hdvd : h.width ∣ (h.max - h.min) := by
    apply Int.dvd_of_emod_eq_zero
    rw [← Int.tmod_eq_emod (by omega) (by omega)]
    exact hmod
  have hde : (s - h.min).tdiv h.width = (s - h.min) / h.width :=
    Int.tdiv_eq_ediv h0 (by omega)
  have hqe : (h.max - h.min).tdiv h.width = (h.max - h.min) / h.width :=
    Int.tdiv_eq_ediv (by omega) (by omega)
  have hdivlt : (s - h.min) / h.width < (h.max - h.min) / h.width := by
    rw [Int.ediv_lt_iff_lt_mul hw, Int.ediv_mul_cancel hdvd]
    exact hlt2
  have hnn : 0 ≤ (s - h.min) / h.width := Int.ediv_nonneg h0 (by omega)
  rw [hlen, hqe, hde]
  omega

/-- Each `Add` increments the total bucket count by exactly one. -/
theorem SimpleHistogram.sum_Add (h : SimpleHistogram) (s : Int)
    (hwf : h.WellFormed) : (h.Add s).buckets.sum = h.buckets.sum + 1 := by
  have hlen2 : 2 ≤ h.buckets.length := by
    obtain ⟨hw, hmod, hlt, hlen⟩ := hwf
    have hq : 0 ≤ (h.max - h.min).tdiv h.width :=
      Int.tdiv_nonneg (by omega) (by omega)
    rw [hlen]
    omega
  unfold SimpleHistogram.Add
  split
  · exact sum_incNth _ 0 (by omega)
  · split
    · exact sum_incNth _ _ (by omega)
    · rename_i hnlt hnge
      have := h.interior_index_lt s hwf (by omega) (by omega)
      exact sum_incNth _ _ (by omega)

/-- Folding `Add` over a sample list adds its length to the total count. -/
theorem sum_foldl_Add (samples : List Int) (h : SimpleHistogram)
    (hwf : h.WellFormed) :
    (samples.foldl SimpleHistogram.Add h).buckets.sum =
      h.buckets.sum + samples.length := by
  induction samples generalizing h with
  | nil => simp
  | cons a l ih =>
      simp only [List.foldl_cons, List.length_cons]
      rw [ih (h.Add a) (h.wellFormed_Add a hwf), h.sum_Add a hwf]
      omega

/-- The constructor checks (`width > 0`, divisibility, more than two
buckets) give a well-formed histogram. -/
theorem mkSimpleHistogram_wellFormed (min max width : Int) (hw : 0 < width)
    (hmod : (max - min).tmod width = 0) (hlt : min < max) :
    (mkSimpleHistogram min max width).WellFormed := by
  refine ⟨hw, hmod, hlt, ?_⟩
  simp [mkSimpleHistogram]

/-- `Reset` preserves well-formedness. -/
theorem SimpleHistogram.wellFormed_Reset (h : SimpleHistogram)
    (hwf : h.WellFormed) : h.Reset.WellFormed := by
  obtain ⟨hw, hmod, hlt, hlen⟩ := hwf
  exact ⟨hw, hmod, hlt, by simpa [SimpleHistogram.Reset] using hlen⟩

/-! ## C5: `SimpleHistogram` bucketing -/

/-- C5: for a histogram constructed with `(min, max, width)` where
`(max - min) % width = 0`, `Add(s)` increments bucket `0` when `s < min`,
the last bucket when `s >= max`, and bucket `1 + (s - min)/width` (a strict
interior bucket) otherwise.  With `(min = 0, max = 800, width = 20)`:
`Add(-5)` lands in bucket `0`, `Add(799)` lands in bucket `40`, the last
interior bucket of the `42`, and `Add(800)` and `Add(10000)` both land in
the overflow bucket; and the sum of all bucket counts after any sequence of
`Add` calls equals the number of calls made since construction or since the
last `Reset`. -/
theorem SimpleHistogram_Add_spec (h : SimpleHistogram) (s : Int)
    (samples : List Int) (hwf : h.WellFormed) :
    (s < h.min → (h.Add s).buckets = incNth h.buckets 0) ∧
    (h.max ≤ s → (h.Add s).buckets = incNth h.buckets (h.buckets.length - 1)) ∧
    (h.min ≤ s → s < h.max →
      (h.Add s).buckets =
        incNth h.buckets (1 + (s - h.min).tdiv h.width).toNat ∧
      (1 + (s - h.min).tdiv h.width).toNat < h.buckets.length - 1) ∧
    ((mkSimpleHistogram 0 800 20).Add (-5)).buckets.head? = some 1 ∧
    ((mkSimpleHistogram 0 800 20).buckets.length = 42 ∧
      ((mkSimpleHistogram 0 800 20).Add 799).buckets[40]? = some 1) ∧
    ((mkSimpleHistogram 0 800 20).Add 800).buckets.getLast? = some 1 ∧
    ((mkSimpleHistogram 0 800 20).Add 10000).buckets.getLast? = some 1 ∧
    (samples.foldl SimpleHistogram.Add
      (mkSimpleHistogram h.min h.max h.width)).buckets.sum = samples.length ∧
    (samples.foldl SimpleHistogram.Add h.Reset).buckets.sum = samples.length := by
  have hwf' := hwf
  obtain ⟨hw, hmod, hlt, hlen⟩ := hwf'
  refine ⟨?_, ?_, ?_, by decide, ⟨by decide, by decide⟩, by decide, by decide,
    ?_, ?_⟩
  · intro hs
    simp [SimpleHistogram.Add, hs]
  · intro hs
    rw [SimpleHistogram.Add, if_neg (by omega), if_pos hs]
  · intro h1 h2
    refine ⟨?_, h.interior_index_lt s hwf h1 h2⟩
    rw [SimpleHistogram.Add, if_neg (by omega), if_neg (by omega)]
  · rw [sum_foldl_Add samples _ (mkSimpleHistogram_wellFormed _ _ _ hw hmod hlt)]
    simp [mkSimpleHistogram]
  · rw [sum_foldl_Add samples _ (h.wellFormed_Reset hwf)]
    simp [SimpleHistogram.Reset]

/-- Witness for `SimpleHistogram_Add_spec` at the concrete
`(0, 800, 20)` histogram, sample `-7` and samples `[-5, 0, 900]`. -/
theorem SimpleHistogram_Add_spec_witness :
    (((-7 : Int) < 0 ∧
      ([(-5 : Int), 0, 900].foldl SimpleHistogram.Add
        (mkSimpleHistogram 0 800 20)).buckets.sum = 3) ∧
      ((mkSimpleHistogram 0 800 20).Add (-7)).buckets = 
        incNth (mkSimpleHistogram 0 800 20).buckets 0) := by
  have h := SimpleHistogram_Add_spec (mkSimpleHistogram 0 800 20) (-7) [-5, 0, 900]
    (mkSimpleHistogram_wellFormed 0 800 20 (by norm_num) (by decide) (by norm_num))
  exact ⟨⟨by norm_num, h.2.2.2.2.2.2.2.1⟩, h.1 (by decide)⟩

/-! ## C1: bounded frame-cache eviction -/

/-- Folding insertions over a concatenation splits. -/
theorem insertAll_append (M : Nat) (s : StatsEventSubscriber)
    (a b : List (Nat × FrameInfo)) :
    insertAll M s (a ++ b) = insertAll M (insertAll M s a) b := by
  simp [insertAll, List.foldl_append]

/-- An insert with a key above every present key and room to spare appends
the entry and evicts nothing. -/
theorem MaybeInsertFrameInfo_append (M : Nat) (s : StatsEventSubscriber)
    (k : Nat) (v : FrameInfo)
    (hk : ∀ x ∈ s.recent_frame_infos, x.1 < k)
    (hlen : s.recent_frame_infos.length + 1 < M) :
    (s.MaybeInsertFrameInfo M k v).recent_frame_infos =
        s.recent_frame_infos ++ [(k, v)] ∧
    (s.MaybeInsertFrameInfo M k v).num_frames_dropped_by_encoder =
        s.num_frames_dropped_by_encoder := by
  constructor <;>
    simp [StatsEventSubscriber.MaybeInsertFrameInfo,
      mapInsert_gt s.recent_frame_infos k v hk,
      show s.recent_frame_infos.length ≠ M by omega,
      show ¬(M ≤ s.recent_frame_infos.length + 1) by omega]

/-- With capacity `1` and an empty cache, an insert immediately evicts the
entry just inserted. -/
theorem MaybeInsertFrameInfo_evict_nil (s : StatsEventSubscriber)
    (k : Nat) (v : FrameInfo) (hres : s.recent_frame_infos = []) :
    (s.MaybeInsertFrameInfo 1 k v).recent_frame_infos = [] ∧
    (s.MaybeInsertFrameInfo 1 k v).num_frames_dropped_by_encoder =
      s.num_frames_dropped_by_encoder +
        (if v.encode_time = 0 then 1 else 0) := by
  constructor
  · simp [StatsEventSubscriber.MaybeInsertFrameInfo, hres, mapInsert]
  · simp only [StatsEventSubscriber.MaybeInsertFrameInfo, hres]
    norm_num [mapInsert]
    split <;> simp

/-- With the cache holding `M - 1` entries, an insert with a key above every
present key appends the entry and then evicts the smallest-keyed one,
counting it as dropped by the encoder when its `encode_time` is unset. -/
theorem MaybeInsertFrameInfo_evict_cons (M : Nat) (s : StatsEventSubscriber)
    (k : Nat) (v : FrameInfo) (hd : Nat × FrameInfo)
    (tl : List (Nat × FrameInfo)) (hres : s.recent_frame_infos = hd :: tl)
    (hk : ∀ x ∈ s.recent_frame_infos, x.1 < k)
    (hlen : s.recent_frame_infos.length + 1 = M) :
    (s.MaybeInsertFrameInfo M k v).recent_frame_infos = tl ++ [(k, v)] ∧
    (s.MaybeInsertFrameInfo M k v).num_frames_dropped_by_encoder =
      s.num_frames_dropped_by_encoder +
        (if hd.2.encode_time = 0 then 1 else 0) := by
  obtain ⟨k0, v0⟩ := hd
  have hins : mapInsert s.recent_frame_infos k v = (k0, v0) :: (tl ++ [(k, v)]) := by
    rw [mapInsert_gt s.recent_frame_infos k v hk, hres]
    simp
  rw [hres] at hlen
  simp only [List.length_cons] at hlen
  have hlen' : s.recent_frame_infos.length ≠ M := by rw [hres]; simp; omega
  have hle : M ≤ ((k0, v0) :: (tl ++ [(k, v)])).length := by simp; omega
  constructor
  · simp only [StatsEventSubscriber.MaybeInsertFrameInfo, hins]
    rw [if_neg (fun hc => hlen' hc.1), if_pos hle]
  · simp only [StatsEventSubscriber.MaybeInsertFrameInfo, hins]
    rw [if_neg (fun hc => hlen' hc.1), if_pos hle]
    simp only
    split <;> simp

/-- Inserting strictly increasing keys while the cache stays below
`M - 1` entries appends them all and never evicts. -/
theorem insertAll_no_evict (M : Nat) (l : List (Nat × FrameInfo))
    (s : StatsEventSubscriber)
    (hsorted : (s.recent_frame_infos ++ l).Pairwise (fun a b => a.1 < b.1))
    (hlen : s.recent_frame_infos.length + l.length < M) :
    (insertAll M s l).recent_frame_infos = s.recent_frame_infos ++ l ∧
    (insertAll M s l).num_frames_dropped_by_encoder =
      s.num_frames_dropped_by_encoder := by
  induction l generalizing s with
  | nil => simp [insertAll]
  | cons p rest ih =>
      obtain ⟨k, v⟩ := p
      have hk : ∀ x ∈ s.recent_frame_infos, x.1 < k := by
        intro x hx
        exact (List.pairwise_append.mp hsorted).2.2 x hx (k, v) (by simp)
      have hstep := MaybeInsertFrameInfo_append M s k v hk
        (by simp at hlen; omega)
      have ihx := ih (s.MaybeInsertFrameInfo M k v)
        (by rw [hstep.1]; simpa using hsorted)
        (by rw [hstep.1]; simp at hlen ⊢; omega)
      have hunfold : insertAll M s ((k, v) :: rest) =
          insertAll M (s.MaybeInsertFrameInfo M k v) rest := rfl
      rw [hunfold, ihx.1, ihx.2, hstep.1, hstep.2]
      simp

/-- Inserting strictly increasing keys into a cache already holding
`M - 1` smaller-keyed entries evicts, for each insert, the smallest-keyed
entry, incrementing the dropped-by-encoder counter exactly for evicted
entries whose `encode_time` was never set. -/
theorem insertAll_evict (M : Nat) (l : List (Nat × FrameInfo))
    (s : StatsEventSubscriber)
    (hsorted : (s.recent_frame_infos ++ l).Pairwise (fun a b => a.1 < b.1))
    (hr : s.recent_frame_infos.length + 1 = M) :
    (insertAll M s l).recent_frame_infos =
      (s.recent_frame_infos ++ l).drop l.length ∧
    (insertAll M s l).num_frames_dropped_by_encoder =
      s.num_frames_dropped_by_encoder +
        countNullEncode ((s.recent_frame_infos ++ l).take l.length) := by
  induction l generalizing s with
  | nil => simp [insertAll, countNullEncode]
  | cons p rest ih =>
      obtain ⟨k, v⟩ := p
      have hk : ∀ x ∈ s.recent_frame_infos, x.1 < k := by
        intro x hx
        exact (List.pairwise_append.mp hsorted).2.2 x hx (k, v) (by simp)
      have hunfold : insertAll M s ((k, v) :: rest) =
          insertAll M (s.MaybeInsertFrameInfo M k v) rest := rfl
      rw [hunfold]
      cases hres : s.recent_frame_infos with
      | nil =>
          have hM : M = 1 := by rw [hres] at hr; simpa using hr.symm
          subst hM
          have hstep := MaybeInsertFrameInfo_evict_nil s k v hres
          have ihx := ih (s.MaybeInsertFrameInfo 1 k v)
            (by
              rw [hstep.1]
              rw [hres] at hsorted
              simpa using hsorted.of_cons)
            (by rw [hstep.1]; simp)
          rw [ihx.1, ihx.2, hstep.1, hstep.2]
          constructor
          · simp [List.drop_succ_cons]
          · simp only [List.nil_append, List.take_succ_cons, countNullEncode,
              List.countP_cons, List.length_cons, beq_iff_eq]
            by_cases hv : v.encode_time = 0 <;> simp [hv] <;> omega
      | cons hd tl =>
          have hstep := MaybeInsertFrameInfo_evict_cons M s k v hd tl hres hk hr
          have hasc : (tl ++ [(k, v)]) ++ rest = tl ++ (k, v) :: rest := by simp
          have ihx := ih (s.MaybeInsertFrameInfo M k v)
            (by
              rw [hstep.1, hasc]
              rw [hres] at hsorted
              exact hsorted.of_cons)
            (by
              rw [hstep.1]
              rw [hres] at hr
              simp at hr ⊢
              omega)
          rw [ihx.1, ihx.2, hstep.1, hstep.2, hasc]
          constructor
          · simp [List.cons_append, List.drop_succ_cons]
          · simp only [List.cons_append, List.take_succ_cons, countNullEncode,
              List.countP_cons, List.length_cons, beq_iff_eq]
            by_cases hv : hd.2.encode_time = 0 <;> simp [hv] <;> omega

/-- C1 counterexample: with `kMaxFrameInfoMapSize = 3`, inserting the four
capture-begin frame infos keyed `10 < 20 < 30 < 40` into an empty cache via
`MaybeInsertFrameInfo` retains `2` entries (not `3`, the claimed `N`) and
increments the dropped-by-encoder counter by `2` (not `1`): the eviction
check `size() >= kMaxFrameInfoMapSize` fires as soon as the map reaches the
capacity, so the steady-state size is `N - 1` and inserts `N` and `N + 1`
each evict. -/
theorem MaybeInsertFrameInfo_claim_counterexample :
    evictedFourState.recent_frame_infos.length = 2 ∧
    evictedFourState.num_frames_dropped_by_encoder = 2 ∧
    evictedFourState.recent_frame_infos =
      [(30, captureInfo 3), (40, captureInfo 4)] ∧
    ¬(evictedFourState.recent_frame_infos.length = 3 ∧
      evictedFourState.num_frames_dropped_by_encoder = 1) := by
  decide

/-- C1 as amended: inserting `N + 1` frame infos with distinct, strictly
increasing keys via `MaybeInsertFrameInfo` into an empty cache of capacity
`N = kMaxFrameInfoMapSize` results in exactly `N - 1` entries retained —
all but the two smallest-keyed ones, which are evicted — and the
dropped-by-encoder counter incremented by exactly the number of those two
evicted entries whose `encode_time` was never set. -/
theorem MaybeInsertFrameInfo_eviction (M : Nat) (s : StatsEventSubscriber)
    (l : List (Nat × FrameInfo)) (hM : 1 ≤ M) (hs : s.recent_frame_infos = [])
    (hlen : l.length = M + 1)
    (hsorted : l.Pairwise (fun a b => a.1 < b.1)) :
    (insertAll M s l).recent_frame_infos = l.drop 2 ∧
    (insertAll M s l).recent_frame_infos.length = M - 1 ∧
    (insertAll M s l).num_frames_dropped_by_encoder =
      s.num_frames_dropped_by_encoder + countNullEncode (l.take 2) := by
  have hsplit : l.take (M - 1) ++ l.drop (M - 1) = l := List.take_append_drop _ _
  have h1 : insertAll M s l =
      insertAll M (insertAll M s (l.take (M - 1))) (l.drop (M - 1)) := by
    rw [← insertAll_append, hsplit]
  have hlt : (l.take (M - 1)).length = M - 1 := by
    rw [List.length_take]
    omega
  have hld : (l.drop (M - 1)).length = 2 := by
    rw [List.length_drop]
    omega
  have hph1 := insertAll_no_evict M (l.take (M - 1)) s
    (by
      rw [hs, List.nil_append]
      exact hsorted.sublist (List.take_sublist _ _))
    (by rw [hs, hlt]; simp; omega)
  have hph2 := insertAll_evict M (l.drop (M - 1))
    (insertAll M s (l.take (M - 1)))
    (by rw [hph1.1, hs, List.nil_append, hsplit]; exact hsorted)
    (by rw [hph1.1, hs, List.nil_append, hlt]; omega)
  have hrec : (insertAll M s l).recent_frame_infos = l.drop 2 := by
    rw [h1, hph2.1, hph1.1, hs, List.nil_append, hsplit, hld]
  refine ⟨hrec, ?_, ?_⟩
  · rw [hrec, List.length_drop]
    omega
  · rw [h1, hph2.2, hph1.2, hph1.1, hs, List.nil_append, hsplit, hld]

/-- Witness for `MaybeInsertFrameInfo_eviction` at capacity `3` and four
concrete capture-begin insertions. -/
theorem MaybeInsertFrameInfo_eviction_witness :
    evictedFourState.recent_frame_infos =
      ([(10, captureInfo 1), (20, captureInfo 2), (30, captureInfo 3),
        (40, captureInfo 4)] : List (Nat × FrameInfo)).drop 2 ∧
    evictedFourState.num_frames_dropped_by_encoder =
      (StatsEventSubscriber.init EventMediaType.VIDEO_EVENT 0).num_frames_dropped_by_encoder +
        countNullEncode ([(10, captureInfo 1), (20, captureInfo 2),
          (30, captureInfo 3), (40, captureInfo 4)].take 2) := by
  have h := MaybeInsertFrameInfo_eviction 3 (StatsEventSubscriber.init EventMediaType.VIDEO_EVENT 0)
    [(10, captureInfo 1), (20, captureInfo 2), (30, captureInfo 3),
     (40, captureInfo 4)] (by decide) rfl (by decide) (by decide)
  exact ⟨h.1, h.2.2⟩

/-! ## Record-update shape of the engine helpers -/

/-- `Add` never changes a histogram's bucket definition. -/
theorem SimpleHistogram.shape_Add (h : SimpleHistogram) (x : Int) :
    (h.Add x).shape = h.shape := by
  unfold SimpleHistogram.Add
  repeat' split
  all_goals simp [SimpleHistogram.shape, length_incNth]

theorem Histograms.shapes_addCapture (H : Histograms) (x : Int) :
    (H.addCapture x).shapes = H.shapes := by
  simp [Histograms.shapes, Histograms.addCapture, SimpleHistogram.shape_Add]

theorem Histograms.shapes_addEncode (H : Histograms) (x : Int) :
    (H.addEncode x).shapes = H.shapes := by
  simp [Histograms.shapes, Histograms.addEncode, SimpleHistogram.shape_Add]

theorem Histograms.shapes_addPacket (H : Histograms) (x : Int) :
    (H.addPacket x).shapes = H.shapes := by
  simp [Histograms.shapes, Histograms.addPacket, SimpleHistogram.shape_Add]

theorem Histograms.shapes_addFrame (H : Histograms) (x : Int) :
    (H.addFrame x).shapes = H.shapes := by
  simp [Histograms.shapes, Histograms.addFrame, SimpleHistogram.shape_Add]

theorem Histograms.shapes_addPlayout (H : Histograms) (x : Int) :
    (H.addPlayout x).shapes = H.shapes := by
  simp [Histograms.shapes, Histograms.addPlayout, SimpleHistogram.shape_Add]

/-- `UpdateFirstLastEventTime` only writes the first/last event times. -/
theorem UpdateFirstLastEventTime_eq (s : StatsEventSubscriber) (t : Int)
    (r : Bool) (bounds : Option (Int × Int)) :
    ∃ a b, s.UpdateFirstLastEventTime t r bounds =
      { s with first_event_time := a, last_event_time := b } := by
  unfold StatsEventSubscriber.UpdateFirstLastEventTime
    StatsEventSubscriber.setFirstLast
  repeat' split
  all_goals exact ⟨_, _, rfl⟩

/-- `UpdateLastResponseTime` only writes the last-response time. -/
theorem UpdateLastResponseTime_eq (s : StatsEventSubscriber) (t : Int)
    (bounds : Option (Int × Int)) :
    ∃ a, s.UpdateLastResponseTime t bounds =
      { s with last_response_received_time := a } := by
  unfold StatsEventSubscriber.UpdateLastResponseTime
  repeat' split
  all_goals exact ⟨_, rfl⟩

/-- `MaybeInsertFrameInfo` only writes the frame cache and the
dropped-by-encoder counter. -/
theorem MaybeInsertFrameInfo_eq (M : Nat) (s : StatsEventSubscriber)
    (k : Nat) (v : FrameInfo) :
    ∃ m d, s.MaybeInsertFrameInfo M k v =
      { s with recent_frame_infos := m,
               num_frames_dropped_by_encoder := d } := by
  unfold StatsEventSubscriber.MaybeInsertFrameInfo
  dsimp only
  repeat' split
  all_goals exact ⟨_, _, rfl⟩

theorem RecordFrameCaptureTime_eq (M : Nat) (s : StatsEventSubscriber)
    (e : FrameEvent) :
    ∃ m d, s.RecordFrameCaptureTime M e =
      { s with recent_frame_infos := m,
               num_frames_dropped_by_encoder := d } :=
  MaybeInsertFrameInfo_eq M s e.rtp_timestamp _

/-- `RecordCaptureLatency` only writes the capture-latency histogram (shape
preserved) and the frame cache. -/
theorem RecordCaptureLatency_eq (s : StatsEventSubscriber) (e : FrameEvent) :
    ∃ H m, (s.RecordCaptureLatency e =
        { s with histograms := H, recent_frame_infos := m }) ∧
      H.shapes = s.histograms.shapes := by
  unfold StatsEventSubscriber.RecordCaptureLatency
  repeat' split
  · exact ⟨s.histograms, s.recent_frame_infos, rfl, rfl⟩
  · exact ⟨_, _, rfl, Histograms.shapes_addCapture _ _⟩
  · exact ⟨s.histograms, _, rfl, rfl⟩

/-- `RecordEncodeLatency` only writes the encode-latency histogram (shape
preserved), the frame cache and the dropped counter. -/
theorem RecordEncodeLatency_eq (M : Nat) (s : StatsEventSubscriber)
    (e : FrameEvent) :
    ∃ H m d, (s.RecordEncodeLatency M e =
        { s with histograms := H, recent_frame_infos := m,
                 num_frames_dropped_by_encoder := d }) ∧
      H.shapes = s.histograms.shapes := by
  unfold StatsEventSubscriber.RecordEncodeLatency
  repeat' split
  · obtain ⟨m, d, hmd⟩ := MaybeInsertFrameInfo_eq M s e.rtp_timestamp
      { capture_time := 0, capture_end_time := 0,
        encode_time := e.timestamp, encoded := false }
    exact ⟨s.histograms, m, d, hmd, rfl⟩
  · exact ⟨_, _, s.num_frames_dropped_by_encoder, rfl,
      Histograms.shapes_addEncode _ _⟩
  · exact ⟨s.histograms, _, s.num_frames_dropped_by_encoder, rfl, rfl⟩

/-- `RecordFrameTxLatency` only writes the frame-latency histogram (shape
preserved). -/
theorem RecordFrameTxLatency_eq (s : StatsEventSubscriber) (e : FrameEvent)
    (bounds : Option (Int × Int)) :
    ∃ H, (s.RecordFrameTxLatency e bounds = { s with histograms := H }) ∧
      H.shapes = s.histograms.shapes := by
  unfold StatsEventSubscriber.RecordFrameTxLatency
  repeat' split
  · exact ⟨s.histograms, rfl, rfl⟩
  · exact ⟨s.histograms, rfl, rfl⟩
  · exact ⟨s.histograms, rfl, rfl⟩
  · exact ⟨_, rfl, Histograms.shapes_addFrame _ _⟩

/-- `RecordE2ELatency` only writes the end-to-end running total and count. -/
theorem RecordE2ELatency_eq (s : StatsEventSubscriber) (e : FrameEvent)
    (bounds : Option (Int × Int)) :
    ∃ a n, s.RecordE2ELatency e bounds =
      { s with total_e2e_latency := a, e2e_latency_datapoints := n } := by
  unfold StatsEventSubscriber.RecordE2ELatency
  repeat' split
  all_goals exact ⟨_, _, rfl⟩

theorem ErasePacketSentTime_eq (s : StatsEventSubscriber) (e : PacketEvent) :
    ∃ m, s.ErasePacketSentTime e = { s with packet_sent_times := m } :=
  ⟨_, rfl⟩

/-- `RecordNetworkLatency` only writes the network-latency totals, the
packet-latency histogram (shape preserved) and the pairing map. -/
theorem RecordNetworkLatency_eq (s : StatsEventSubscriber) (e : PacketEvent)
    (bounds : Option (Int × Int)) :
    ∃ a n H m, (s.RecordNetworkLatency e bounds =
        { s with total_network_latency := a,
                 network_latency_datapoints := n,
                 histograms := H, packet_sent_times := m }) ∧
      H.shapes = s.histograms.shapes := by
  unfold StatsEventSubscriber.RecordNetworkLatency
  dsimp only
  repeat' split
  all_goals first
    | exact ⟨_, _, s.histograms, _, rfl, rfl⟩
    | exact ⟨_, _, _, _, rfl, Histograms.shapes_addPacket _ _⟩

theorem frameDispatch_core (M : Nat) (s : StatsEventSubscriber)
    (e : FrameEvent) (bounds : Option (Int × Int)) :
    (StatsEventSubscriber.frameDispatch M s e bounds).event_media_type = s.event_media_type ∧
    (StatsEventSubscriber.frameDispatch M s e bounds).histograms.shapes = s.histograms.shapes ∧
    (StatsEventSubscriber.frameDispatch M s e bounds).packet_stats = s.packet_stats := by
  unfold StatsEventSubscriber.frameDispatch
  obtain ⟨ts, ty, mt, rtp, sz, dd⟩ := e
  cases ty <;> dsimp only
  case FRAME_CAPTURE_BEGIN =>
      obtain ⟨m, d, h⟩ := RecordFrameCaptureTime_eq M s _
      rw [h]
      exact ⟨rfl, rfl, rfl⟩
  case FRAME_CAPTURE_END =>
      obtain ⟨H, m, h, hsh⟩ := RecordCaptureLatency_eq s _
      rw [h]
      exact ⟨rfl, hsh, rfl⟩
  case FRAME_ENCODED =>
      obtain ⟨H, m, d, h, hsh⟩ := RecordEncodeLatency_eq M s _
      rw [h]
      exact ⟨rfl, hsh, rfl⟩
  case FRAME_ACK_SENT =>
      obtain ⟨H, h, hsh⟩ := RecordFrameTxLatency_eq s _ bounds
      rw [h]
      exact ⟨rfl, hsh, rfl⟩
  case FRAME_PLAYOUT =>
      obtain ⟨a, n, h⟩ := RecordE2ELatency_eq s _ bounds
      rw [h]
      exact ⟨rfl, Histograms.shapes_addPlayout _ _, rfl⟩
  all_goals exact ⟨rfl, rfl, rfl⟩

theorem packetDispatch_core (s : StatsEventSubscriber) (e : PacketEvent)
    (bounds : Option (Int × Int)) :
    (StatsEventSubscriber.packetDispatch s e bounds).event_media_type = s.event_media_type ∧
    (StatsEventSubscriber.packetDispatch s e bounds).histograms.shapes = s.histograms.shapes ∧
    (StatsEventSubscriber.packetDispatch s e bounds).packet_stats = s.packet_stats := by
  unfold StatsEventSubscriber.packetDispatch
  split
  · obtain ⟨a, n, H, m, h, hsh⟩ := RecordNetworkLatency_eq s e bounds
    rw [h]
    exact ⟨rfl, hsh, rfl⟩
  · split
    · obtain ⟨m, h⟩ := ErasePacketSentTime_eq s e
      rw [h]
      exact ⟨rfl, rfl, rfl⟩
    · exact ⟨rfl, rfl, rfl⟩

theorem OnReceiveFrameEvent_core (M : Nat) (s : StatsEventSubscriber)
    (e : FrameEvent) (bounds : Option (Int × Int)) :
    (s.OnReceiveFrameEvent M e bounds).event_media_type =
      s.event_media_type ∧
    (s.OnReceiveFrameEvent M e bounds).histograms.shapes =
      s.histograms.shapes ∧
    (s.OnReceiveFrameEvent M e bounds).packet_stats = s.packet_stats := by
  unfold StatsEventSubscriber.OnReceiveFrameEvent
  split
  · exact ⟨rfl, rfl, rfl⟩
  · dsimp only
    obtain ⟨a, b, hab⟩ := UpdateFirstLastEventTime_eq (s.frameStatsUpdate e)
      e.timestamp (IsReceiverEvent e.type) bounds
    rw [hab]
    have hd := frameDispatch_core M
      { s.frameStatsUpdate e with first_event_time := a, last_event_time := b }
      e bounds
    split
    · obtain ⟨c, hc⟩ := UpdateLastResponseTime_eq _ e.timestamp bounds
      rw [hc]
      exact ⟨hd.1, hd.2.1, hd.2.2⟩
    · exact ⟨hd.1, hd.2.1, hd.2.2⟩

theorem OnReceivePacketEvent_core (s : StatsEventSubscriber)
    (e : PacketEvent) (bounds : Option (Int × Int)) :
    (s.OnReceivePacketEvent e bounds).event_media_type =
      s.event_media_type ∧
    (s.OnReceivePacketEvent e bounds).histograms.shapes =
      s.histograms.shapes ∧
    ((s.OnReceivePacketEvent e bounds).packet_stats = s.packet_stats ∨
     (s.OnReceivePacketEvent e bounds).packet_stats =
       (s.packetStatsUpdate e).packet_stats) := by
  unfold StatsEventSubscriber.OnReceivePacketEvent
  split
  · exact ⟨rfl, rfl, Or.inl rfl⟩
  · dsimp only
    obtain ⟨a, b, hab⟩ := UpdateFirstLastEventTime_eq (s.packetStatsUpdate e)
      e.timestamp (IsReceiverEvent e.type) bounds
    rw [hab]
    have hd := packetDispatch_core
      { s.packetStatsUpdate e with first_event_time := a, last_event_time := b }
      e bounds
    split
    · obtain ⟨c, hc⟩ := UpdateLastResponseTime_eq _ e.timestamp bounds
      rw [hc]
      exact ⟨hd.1, hd.2.1, Or.inr hd.2.2⟩
    · exact ⟨hd.1, hd.2.1, Or.inr hd.2.2⟩

theorem packetStatsUpdate_pos (s : StatsEventSubscriber) (e : PacketEvent)
    (hs : PacketStatsPos s) : PacketStatsPos (s.packetStatsUpdate e) := by
  intro t st hst
  simp only [StatsEventSubscriber.packetStatsUpdate] at hst
  by_cases ht : t = e.type
  · rw [if_pos ht] at hst
    cases hfind : s.packet_stats e.type with
    | none =>
        rw [hfind] at hst
        cases hst
        simp
    | some st0 =>
        rw [hfind] at hst
        cases hst
        simp
  · rw [if_neg ht] at hst
    exact hs t st hst

theorem stepEvent_core (M : Nat) (s : StatsEventSubscriber) (ev : EvIn) :
    (stepEvent M s ev).event_media_type = s.event_media_type ∧
    (stepEvent M s ev).histograms.shapes = s.histograms.shapes ∧
    (PacketStatsPos s → PacketStatsPos (stepEvent M s ev)) := by
  cases ev with
  | fr e b =>
      have h := OnReceiveFrameEvent_core M s e b
      refine ⟨h.1, h.2.1, fun hp t st hst => ?_⟩
      rw [show (stepEvent M s (EvIn.fr e b)) = s.OnReceiveFrameEvent M e b
        from rfl, h.2.2] at hst
      exact hp t st hst
  | pk e b =>
      have h := OnReceivePacketEvent_core s e b
      refine ⟨h.1, h.2.1, fun hp t st hst => ?_⟩
      rcases h.2.2 with hps | hps
      · rw [show (stepEvent M s (EvIn.pk e b)) = s.OnReceivePacketEvent e b
          from rfl, hps] at hst
        exact hp t st hst
      · rw [show (stepEvent M s (EvIn.pk e b)) = s.OnReceivePacketEvent e b
          from rfl, hps] at hst
        exact packetStatsUpdate_pos s e hp t st hst

theorem runEvents_core (M : Nat) (es : List EvIn) (s : StatsEventSubscriber) :
    (runEvents M s es).event_media_type = s.event_media_type ∧
    (runEvents M s es).histograms.shapes = s.histograms.shapes ∧
    (PacketStatsPos s → PacketStatsPos (runEvents M s es)) := by
  induction es generalizing s with
  | nil => exact ⟨rfl, rfl, fun h => h⟩
  | cons ev rest ih =>
      have hstep := stepEvent_core M s ev
      have ihx := ih (stepEvent M s ev)
      have hrun : runEvents M s (ev :: rest) =
          runEvents M (stepEvent M s ev) rest := rfl
      refine ⟨?_, ?_, fun hp => ?_⟩
      · rw [hrun, ihx.1, hstep.1]
      · rw [hrun, ihx.2.1, hstep.2.1]
      · rw [hrun]
        exact ihx.2.2 (hstep.2.2 hp)

/-! ## Branch behaviour of `RecordNetworkLatency` -/

/-- Without a clock offset, `RecordNetworkLatency` does nothing. -/
theorem RecordNetworkLatency_no_offset (s : StatsEventSubscriber)
    (e : PacketEvent) (bounds : Option (Int × Int))
    (hoff : StatsEventSubscriber.GetReceiverOffset bounds = none) :
    s.RecordNetworkLatency e bounds = s := by
  unfold StatsEventSubscriber.RecordNetworkLatency
  rw [hoff]

/-- With no pairing entry for the key, `RecordNetworkLatency` only writes
the pairing map. -/
theorem RecordNetworkLatency_fresh (s : StatsEventSubscriber)
    (e : PacketEvent) (bounds : Option (Int × Int))
    (hfresh : mapFind s.packet_sent_times
      (StatsEventSubscriber.packetKey e) = none) :
    ∃ m, s.RecordNetworkLatency e bounds =
      { s with packet_sent_times := m } := by
  unfold StatsEventSubscriber.RecordNetworkLatency
  dsimp only
  split
  · exact ⟨s.packet_sent_times, rfl⟩
  · rw [hfresh]
    exact ⟨_, rfl⟩

/-- First event for a key (offset available, map below capacity): the
`(timestamp, kind)` pair is stored and nothing else changes. -/
theorem RecordNetworkLatency_store (s : StatsEventSubscriber)
    (e : PacketEvent) (bounds : Option (Int × Int)) (off : Int)
    (hoff : StatsEventSubscriber.GetReceiverOffset bounds = some off)
    (hfresh : mapFind s.packet_sent_times
      (StatsEventSubscriber.packetKey e) = none)
    (hsize : s.packet_sent_times.length < kMaxPacketEventTimeMapSize) :
    s.RecordNetworkLatency e bounds =
      { s with packet_sent_times := (mapInsert s.packet_sent_times
          (StatsEventSubscriber.packetKey e) (e.timestamp, e.type)) } := by
  unfold StatsEventSubscriber.RecordNetworkLatency
  rw [hoff]
  dsimp only
  rw [hfresh]
  dsimp only
  rw [if_neg]
  rw [length_mapInsert _ _ _ hfresh]
  omega

/-- Stored `sent-to-network`, incoming `received`: one latency sample
`(received_time - offset) - sent_time` is credited and the entry erased. -/
theorem RecordNetworkLatency_pair_sr (s : StatsEventSubscriber)
    (e : PacketEvent) (bounds : Option (Int × Int)) (off t0 : Int)
    (hoff : StatsEventSubscriber.GetReceiverOffset bounds = some off)
    (hfind : mapFind s.packet_sent_times (StatsEventSubscriber.packetKey e) =
      some (t0, CastLoggingEvent.PACKET_SENT_TO_NETWORK))
    (hty : e.type = CastLoggingEvent.PACKET_RECEIVED) :
    s.RecordNetworkLatency e bounds =
      { s with
        total_network_latency :=
          s.total_network_latency + ((e.timestamp - off) - t0),
        network_latency_datapoints := s.network_latency_datapoints + 1,
        histograms := s.histograms.addPacket ((e.timestamp - off) - t0),
        packet_sent_times := (mapErase s.packet_sent_times
          (StatsEventSubscriber.packetKey e)) } := by
  unfold StatsEventSubscriber.RecordNetworkLatency
  rw [hoff]
  dsimp only
  rw [hfind]
  dsimp only
  rw [if_pos ⟨rfl, hty⟩]

/-- Stored `received`, incoming `sent-to-network` (reverse arrival order):
the same single latency sample is credited and the entry erased. -/
theorem RecordNetworkLatency_pair_rs (s : StatsEventSubscriber)
    (e : PacketEvent) (bounds : Option (Int × Int)) (off t0 : Int)
    (hoff : StatsEventSubscriber.GetReceiverOffset bounds = some off)
    (hfind : mapFind s.packet_sent_times (StatsEventSubscriber.packetKey e) =
      some (t0, CastLoggingEvent.PACKET_RECEIVED))
    (hty : e.type = CastLoggingEvent.PACKET_SENT_TO_NETWORK) :
    s.RecordNetworkLatency e bounds =
      { s with
        total_network_latency :=
          s.total_network_latency + ((t0 - off) - e.timestamp),
        network_latency_datapoints := s.network_latency_datapoints + 1,
        histograms := s.histograms.addPacket ((t0 - off) - e.timestamp),
        packet_sent_times := (mapErase s.packet_sent_times
          (StatsEventSubscriber.packetKey e)) } := by
  unfold StatsEventSubscriber.RecordNetworkLatency
  rw [hoff]
  dsimp only
  rw [hfind]
  dsimp only
  rw [if_neg (fun hc => by cases hc.1), if_pos ⟨rfl, hty⟩]

/-- A second event whose kind is not complementary to the stored kind
leaves the entry in place and credits nothing. -/
theorem RecordNetworkLatency_nomatch (s : StatsEventSubscriber)
    (e : PacketEvent) (bounds : Option (Int × Int)) (off t0 : Int)
    (ty0 : CastLoggingEvent)
    (hoff : StatsEventSubscriber.GetReceiverOffset bounds = some off)
    (hfind : mapFind s.packet_sent_times (StatsEventSubscriber.packetKey e) =
      some (t0, ty0))
    (hnc : ¬((ty0 = CastLoggingEvent.PACKET_SENT_TO_NETWORK ∧
              e.type = CastLoggingEvent.PACKET_RECEIVED) ∨
             (ty0 = CastLoggingEvent.PACKET_RECEIVED ∧
              e.type = CastLoggingEvent.PACKET_SENT_TO_NETWORK))) :
    s.RecordNetworkLatency e bounds = s := by
  unfold StatsEventSubscriber.RecordNetworkLatency
  rw [hoff]
  dsimp only
  rw [hfind]
  dsimp only
  rw [if_neg (fun hc => hnc (Or.inl hc)), if_neg (fun hc => hnc (Or.inr hc))]

/-! ## C3 / C6 / C7: latency recording -/

/-- The frame-counter update leaves the frame cache untouched. -/
theorem frameStatsUpdate_recent (s : StatsEventSubscriber) (e : FrameEvent) :
    (s.frameStatsUpdate e).recent_frame_infos = s.recent_frame_infos := rfl

/-- The frame-counter update leaves the histograms untouched. -/
theorem frameStatsUpdate_histograms (s : StatsEventSubscriber)
    (e : FrameEvent) :
    (s.frameStatsUpdate e).histograms = s.histograms := rfl

/-- The packet-counter update leaves the pairing map untouched. -/
theorem packetStatsUpdate_pst (s : StatsEventSubscriber) (e : PacketEvent) :
    (s.packetStatsUpdate e).packet_sent_times = s.packet_sent_times := rfl

/-- A `sent-to-network` packet event with no pending pairing entry credits
no network-latency sample. -/
theorem OnReceivePacketEvent_sent_fresh (s : StatsEventSubscriber)
    (e : PacketEvent) (b : Option (Int × Int))
    (ht : e.type = PACKET_SENT_TO_NETWORK)
    (hfresh : mapFind s.packet_sent_times
      (StatsEventSubscriber.packetKey e) = none) :
    (s.OnReceivePacketEvent e b).network_latency_datapoints =
      s.network_latency_datapoints ∧
    (s.OnReceivePacketEvent e b).total_network_latency =
      s.total_network_latency ∧
    (s.OnReceivePacketEvent e b).histograms.packet_latency =
      s.histograms.packet_latency := by
  unfold StatsEventSubscriber.OnReceivePacketEvent
  split
  · exact ⟨rfl, rfl, rfl⟩
  · dsimp only
    generalize hS : (s.packetStatsUpdate e).UpdateFirstLastEventTime
      e.timestamp (IsReceiverEvent e.type) b = S
    have hpre : S.network_latency_datapoints = s.network_latency_datapoints ∧
        S.total_network_latency = s.total_network_latency ∧
        S.histograms = s.histograms ∧
        S.packet_sent_times = s.packet_sent_times := by
      obtain ⟨a, bb, hab⟩ := UpdateFirstLastEventTime_eq
        (s.packetStatsUpdate e) e.timestamp (IsReceiverEvent e.type) b
      rw [← hS, hab]
      exact ⟨rfl, rfl, rfl, rfl⟩
    unfold StatsEventSubscriber.packetDispatch
    rw [ht, if_pos (Or.inl rfl), if_neg (by decide)]
    obtain ⟨m, hm⟩ := RecordNetworkLatency_fresh S e b
      (by rw [hpre.2.2.2]; exact hfresh)
    rw [hm]
    refine ⟨hpre.1, hpre.2.1, ?_⟩
    show S.histograms.packet_latency = s.histograms.packet_latency
    rw [hpre.2.2.1]

/-- A `retransmitted` packet event credits no network-latency sample and
purges any pairing entry for its `(rtp_timestamp, packet_id)` key. -/
theorem OnReceivePacketEvent_retransmit (s : StatsEventSubscriber)
    (e : PacketEvent) (b : Option (Int × Int))
    (ht : e.type = PACKET_RETRANSMITTED)
    (hm : e.media_type = s.event_media_type) :
    (s.OnReceivePacketEvent e b).network_latency_datapoints =
      s.network_latency_datapoints ∧
    (s.OnReceivePacketEvent e b).total_network_latency =
      s.total_network_latency ∧
    (s.OnReceivePacketEvent e b).histograms.packet_latency =
      s.histograms.packet_latency ∧
    mapFind (s.OnReceivePacketEvent e b).packet_sent_times
      (StatsEventSubscriber.packetKey e) = none := by
  unfold StatsEventSubscriber.OnReceivePacketEvent
  rw [if_neg (fun hne => hne hm)]
  dsimp only
  generalize hS : (s.packetStatsUpdate e).UpdateFirstLastEventTime
    e.timestamp (IsReceiverEvent e.type) b = S
  have hpre : S.network_latency_datapoints = s.network_latency_datapoints ∧
      S.total_network_latency = s.total_network_latency ∧
      S.histograms = s.histograms := by
    obtain ⟨a, bb, hab⟩ := UpdateFirstLastEventTime_eq
      (s.packetStatsUpdate e) e.timestamp (IsReceiverEvent e.type) b
    rw [← hS, hab]
    exact ⟨rfl, rfl, rfl⟩
  unfold StatsEventSubscriber.packetDispatch
  rw [ht]
  rw [if_neg (show ¬(PACKET_RETRANSMITTED = PACKET_SENT_TO_NETWORK ∨
    PACKET_RETRANSMITTED = PACKET_RECEIVED) by decide)]
  rw [if_pos (show PACKET_RETRANSMITTED = PACKET_RETRANSMITTED from rfl)]
  rw [if_neg (show ¬(IsReceiverEvent PACKET_RETRANSMITTED = true) by decide)]
  unfold StatsEventSubscriber.ErasePacketSentTime
  refine ⟨hpre.1, hpre.2.1, ?_, mapFind_erase _ _⟩
  show S.histograms.packet_latency = s.histograms.packet_latency
  rw [hpre.2.2]

/-- C7: a `sent-to-network` event followed by a `retransmitted` event for
the same `(rtp_timestamp, packet_id)` key, before any `received` event for
it, erases the pending pairing entry and produces zero network-latency
samples for that key — the running network-latency total, the datapoint
count and the packet-latency histogram are all unchanged. -/
theorem OnReceivePacketEvent_retransmit_exclusion (s : StatsEventSubscriber) (e1 e2 : PacketEvent)
    (b1 b2 : Option (Int × Int))
    (ht1 : e1.type = PACKET_SENT_TO_NETWORK)
    (ht2 : e2.type = PACKET_RETRANSMITTED)
    (hm2 : e2.media_type = s.event_media_type)
    (hkey : StatsEventSubscriber.packetKey e2 =
      StatsEventSubscriber.packetKey e1)
    (hfresh : mapFind s.packet_sent_times
      (StatsEventSubscriber.packetKey e1) = none) :
    ((s.OnReceivePacketEvent e1 b1).OnReceivePacketEvent
      e2 b2).network_latency_datapoints = s.network_latency_datapoints ∧
    ((s.OnReceivePacketEvent e1 b1).OnReceivePacketEvent
      e2 b2).total_network_latency = s.total_network_latency ∧
    ((s.OnReceivePacketEvent e1 b1).OnReceivePacketEvent
      e2 b2).histograms.packet_latency = s.histograms.packet_latency ∧
    mapFind ((s.OnReceivePacketEvent e1 b1).OnReceivePacketEvent
      e2 b2).packet_sent_times (StatsEventSubscriber.packetKey e1) = none := by
  have h1 := OnReceivePacketEvent_sent_fresh s e1 b1 ht1 hfresh
  have hm2x : e2.media_type = (s.OnReceivePacketEvent e1 b1).event_media_type := by
    rw [(OnReceivePacketEvent_core s e1 b1).1]
    exact hm2
  have h2 := OnReceivePacketEvent_retransmit (s.OnReceivePacketEvent e1 b1)
    e2 b2 ht2 hm2x
  refine ⟨h2.1.trans h1.1, h2.2.1.trans h1.2.1, h2.2.2.1.trans h1.2.2, ?_⟩
  rw [← hkey]
  exact h2.2.2.2

/-- C3 as amended: an end-to-end latency sample is accumulated into the
running total and datapoint count exactly when a valid clock offset is
available and a frame working-state entry exists for the frame's
`rtp_timestamp`; the entry's stored `capture_time` is used even when it was
never set (the null value `0`).  If the offset or the entry is missing, the
sample is skipped and the running total and count are unchanged. -/
theorem RecordE2ELatency_spec (s : StatsEventSubscriber) (e : FrameEvent)
    (bounds : Option (Int × Int)) :
    (StatsEventSubscriber.GetReceiverOffset bounds = none →
      s.RecordE2ELatency e bounds = s) ∧
    (mapFind s.recent_frame_infos e.rtp_timestamp = none →
      s.RecordE2ELatency e bounds = s) ∧
    (∀ off fi, StatsEventSubscriber.GetReceiverOffset bounds = some off →
      mapFind s.recent_frame_infos e.rtp_timestamp = some fi →
      (s.RecordE2ELatency e bounds).e2e_latency_datapoints =
        s.e2e_latency_datapoints + 1 ∧
      (s.RecordE2ELatency e bounds).total_e2e_latency =
        s.total_e2e_latency +
          ((e.timestamp + e.delay_delta - off) - fi.capture_time)) := by
  refine ⟨?_, ?_, ?_⟩
  · intro h
    unfold StatsEventSubscriber.RecordE2ELatency
    rw [h]
  · intro h
    unfold StatsEventSubscriber.RecordE2ELatency
    cases hoff : StatsEventSubscriber.GetReceiverOffset bounds with
    | none => rfl
    | some off =>
        dsimp only
        rw [h]
  · intro off fi hoff hfind
    unfold StatsEventSubscriber.RecordE2ELatency
    rw [hoff]
    dsimp only
    rw [hfind]
    exact ⟨rfl, rfl⟩

/-- C3 counterexample: after a `FRAME_ENCODED` event creates a
working-state entry whose `capture_time` was never set (it is null), a
`FRAME_PLAYOUT` event with a valid clock offset still accumulates an
end-to-end latency sample — the claim that the sample is skipped when
`capture_time` is unknown is false; the code only checks that the entry
exists. -/
theorem RecordE2ELatency_counterexample :
    (mapFind (runEvents 100 (StatsEventSubscriber.init VIDEO_EVENT 0)
        [EvIn.fr encodedFirstEvent none]).recent_frame_infos 100).map
      FrameInfo.capture_time = some 0 ∧
    (runEvents 100 (StatsEventSubscriber.init VIDEO_EVENT 0)
        [EvIn.fr encodedFirstEvent none,
         EvIn.fr playoutEvent (some (0, 0))]).e2e_latency_datapoints = 1 ∧
    (runEvents 100 (StatsEventSubscriber.init VIDEO_EVENT 0)
        [EvIn.fr encodedFirstEvent none,
         EvIn.fr playoutEvent (some (0, 0))]).total_e2e_latency = 52 := by
  refine ⟨?_, ?_, ?_⟩ <;> rfl

/-- C6: when a capture-end event arrives for a frame whose capture-begin
timestamp was previously recorded, the capture-latency sample fed to the
capture-latency histogram equals `capture_begin_timestamp -
capture_end_event_timestamp` (begin minus end); for a well-ordered pair
(capture-end strictly after capture-begin) the sample is negative and
increments the histogram's underflow bucket `0`. -/
theorem OnReceiveFrameEvent_capture_latency_underflow (M : Nat) (s : StatsEventSubscriber) (e : FrameEvent)
    (bounds : Option (Int × Int)) (fi : FrameInfo)
    (hty : e.type = FRAME_CAPTURE_END)
    (hmt : e.media_type = s.event_media_type)
    (hfind : mapFind s.recent_frame_infos e.rtp_timestamp = some fi)
    (hct : fi.capture_time ≠ 0)
    (hord : fi.capture_time < e.timestamp)
    (hmin : s.histograms.capture_latency.min = 0) :
    (s.OnReceiveFrameEvent M e bounds).histograms.capture_latency =
      s.histograms.capture_latency.Add (fi.capture_time - e.timestamp) ∧
    fi.capture_time - e.timestamp < 0 ∧
    (s.OnReceiveFrameEvent M e bounds).histograms.capture_latency.buckets =
      incNth s.histograms.capture_latency.buckets 0 := by
  have hmain : (s.OnReceiveFrameEvent M e bounds).histograms.capture_latency =
      s.histograms.capture_latency.Add (fi.capture_time - e.timestamp) := by
    unfold StatsEventSubscriber.OnReceiveFrameEvent
    rw [if_neg (fun hne => hne hmt)]
    dsimp only
    generalize hS : (s.frameStatsUpdate e).UpdateFirstLastEventTime
      e.timestamp (IsReceiverEvent e.type) bounds = S
    have hpre : S.recent_frame_infos = s.recent_frame_infos ∧
        S.histograms = s.histograms := by
      obtain ⟨a, b, hab⟩ := UpdateFirstLastEventTime_eq
        (s.frameStatsUpdate e) e.timestamp (IsReceiverEvent e.type) bounds
      rw [← hS, hab]
      exact ⟨rfl, rfl⟩
    unfold StatsEventSubscriber.frameDispatch
    rw [hty]
    dsimp only
    rw [if_neg (by decide)]
    unfold StatsEventSubscriber.RecordCaptureLatency
    rw [hpre.1, hfind]
    dsimp only
    rw [if_pos hct]
    show ((S.histograms.addCapture (fi.capture_time - e.timestamp)).capture_latency) = _
    rw [hpre.2]
    rfl
  refine ⟨hmain, by omega, ?_⟩
  rw [hmain]
  unfold SimpleHistogram.Add
  rw [if_pos (by rw [hmin]; omega)]

/-- Witness for `OnReceivePacketEvent_retransmit_exclusion` on a fresh
engine and the concrete packet `(7, 2)`. -/
theorem OnReceivePacketEvent_retransmit_exclusion_witness :
    mapFind (((StatsEventSubscriber.init VIDEO_EVENT 0).OnReceivePacketEvent
        packetSentEvent (some (0, 0))).OnReceivePacketEvent
      packetRetransmitEvent (some (0, 0))).packet_sent_times
      (StatsEventSubscriber.packetKey packetSentEvent) = none :=
  (OnReceivePacketEvent_retransmit_exclusion (StatsEventSubscriber.init VIDEO_EVENT 0) packetSentEvent
    packetRetransmitEvent (some (0, 0)) (some (0, 0)) rfl rfl rfl rfl
    rfl).2.2.2

/-- Witness for `RecordE2ELatency_spec` at the concrete
encoded-then-playout scenario. -/
theorem RecordE2ELatency_spec_witness :
    ((runEvents 100 (StatsEventSubscriber.init VIDEO_EVENT 0)
        [EvIn.fr encodedFirstEvent none]).RecordE2ELatency playoutEvent
      (some (0, 0))).e2e_latency_datapoints =
      (runEvents 100 (StatsEventSubscriber.init VIDEO_EVENT 0)
        [EvIn.fr encodedFirstEvent none]).e2e_latency_datapoints + 1 :=
  ((RecordE2ELatency_spec (runEvents 100 (StatsEventSubscriber.init VIDEO_EVENT 0)
      [EvIn.fr encodedFirstEvent none]) playoutEvent (some (0, 0))).2.2 0
    { capture_time := 0, capture_end_time := 0, encode_time := 5,
      encoded := false } rfl (by rfl)).1

/-- Witness for `OnReceiveFrameEvent_capture_latency_underflow` on the
concrete capture-begin(7)/capture-end(9) pair. -/
theorem OnReceiveFrameEvent_capture_latency_underflow_witness :
    ((runEvents 100 (StatsEventSubscriber.init VIDEO_EVENT 0)
        [EvIn.fr captureBeginEvent none]).OnReceiveFrameEvent 100
      captureEndEvent none).histograms.capture_latency.buckets =
      incNth ((runEvents 100 (StatsEventSubscriber.init VIDEO_EVENT 0)
        [EvIn.fr captureBeginEvent none]).histograms.capture_latency.buckets)
        0 :=
  (OnReceiveFrameEvent_capture_latency_underflow 100 (runEvents 100 (StatsEventSubscriber.init VIDEO_EVENT 0)
      [EvIn.fr captureBeginEvent none]) captureEndEvent none
    (captureInfo 7) rfl rfl (by rfl) (by decide) (by decide) (by rfl)).2.2

/-! ## C4: network-latency pairing -/

/-- C4: with a clock offset available and the key `(rtp_timestamp,
packet_id)` unpaired, the first of `sent-to-network` / `received` stores
`(timestamp, kind)` and credits nothing; when the complementary kind later
arrives, exactly one latency sample `(received-side timestamp - offset) -
sent-side timestamp` is added to the running network-latency total/count
and the packet-latency histogram and the pairing entry is erased; a
subsequent event for the same key starts a fresh, independent pairing; and
a second event whose kind equals the stored kind leaves the entry in place
and credits nothing. -/
theorem RecordNetworkLatency_pairing (s : StatsEventSubscriber)
    (e1 e2 e3 : PacketEvent) (b1 b2 b3 : Option (Int × Int))
    (off1 off2 off3 : Int)
    (ho1 : StatsEventSubscriber.GetReceiverOffset b1 = some off1)
    (ho2 : StatsEventSubscriber.GetReceiverOffset b2 = some off2)
    (ho3 : StatsEventSubscriber.GetReceiverOffset b3 = some off3)
    (hk2 : StatsEventSubscriber.packetKey e2 =
      StatsEventSubscriber.packetKey e1)
    (hk3 : StatsEventSubscriber.packetKey e3 =
      StatsEventSubscriber.packetKey e1)
    (hfresh : mapFind s.packet_sent_times
      (StatsEventSubscriber.packetKey e1) = none)
    (hsize : s.packet_sent_times.length < kMaxPacketEventTimeMapSize)
    (hcomp : e1.type = PACKET_SENT_TO_NETWORK ∧
        e2.type = PACKET_RECEIVED ∨
      e1.type = PACKET_RECEIVED ∧ e2.type = PACKET_SENT_TO_NETWORK) :
    mapFind (s.RecordNetworkLatency e1 b1).packet_sent_times
      (StatsEventSubscriber.packetKey e1) = some (e1.timestamp, e1.type) ∧
    (s.RecordNetworkLatency e1 b1).network_latency_datapoints =
      s.network_latency_datapoints ∧
    ((s.RecordNetworkLatency e1 b1).RecordNetworkLatency
      e2 b2).network_latency_datapoints = s.network_latency_datapoints + 1 ∧
    (e1.type = PACKET_SENT_TO_NETWORK → e2.type = PACKET_RECEIVED →
      ((s.RecordNetworkLatency e1 b1).RecordNetworkLatency
        e2 b2).total_network_latency =
          s.total_network_latency + ((e2.timestamp - off2) - e1.timestamp) ∧
      ((s.RecordNetworkLatency e1 b1).RecordNetworkLatency
        e2 b2).histograms.packet_latency =
          s.histograms.packet_latency.Add ((e2.timestamp - off2) - e1.timestamp)) ∧
    (e1.type = PACKET_RECEIVED → e2.type = PACKET_SENT_TO_NETWORK →
      ((s.RecordNetworkLatency e1 b1).RecordNetworkLatency
        e2 b2).total_network_latency =
          s.total_network_latency + ((e1.timestamp - off2) - e2.timestamp) ∧
      ((s.RecordNetworkLatency e1 b1).RecordNetworkLatency
        e2 b2).histograms.packet_latency =
          s.histograms.packet_latency.Add ((e1.timestamp - off2) - e2.timestamp)) ∧
    mapFind ((s.RecordNetworkLatency e1 b1).RecordNetworkLatency
      e2 b2).packet_sent_times (StatsEventSubscriber.packetKey e1) = none ∧
    mapFind ((((s.RecordNetworkLatency e1 b1).RecordNetworkLatency
      e2 b2)).RecordNetworkLatency e3 b3).packet_sent_times
      (StatsEventSubscriber.packetKey e1) = some (e3.timestamp, e3.type) ∧
    ((((s.RecordNetworkLatency e1 b1).RecordNetworkLatency
      e2 b2)).RecordNetworkLatency e3 b3).network_latency_datapoints =
      ((s.RecordNetworkLatency e1 b1).RecordNetworkLatency
        e2 b2).network_latency_datapoints ∧
    (∀ e4 b4 off4, StatsEventSubscriber.packetKey e4 =
        StatsEventSubscriber.packetKey e1 →
      StatsEventSubscriber.GetReceiverOffset b4 = some off4 →
      e4.type = e1.type →
      (s.RecordNetworkLatency e1 b1).RecordNetworkLatency e4 b4 =
        s.RecordNetworkLatency e1 b1) := by
  have h1 := RecordNetworkLatency_store s e1 b1 off1 ho1 hfresh hsize
  have hfind1 : mapFind (s.RecordNetworkLatency e1 b1).packet_sent_times
      (StatsEventSubscriber.packetKey e1) = some (e1.timestamp, e1.type) := by
    rw [h1]
    exact mapFind_insert_self _ _ _ hfresh
  have hlen1 : (s.RecordNetworkLatency e1 b1).packet_sent_times.length =
      s.packet_sent_times.length + 1 := by
    rw [h1]
    exact length_mapInsert _ _ _ hfresh
  rcases hcomp with ⟨hA, hB⟩ | ⟨hA, hB⟩
  all_goals {
    first
    | (have hfind2 : mapFind (s.RecordNetworkLatency e1 b1).packet_sent_times
          (StatsEventSubscriber.packetKey e2) =
            some (e1.timestamp, PACKET_SENT_TO_NETWORK) := by
          rw [hk2, ← hA]
          exact hfind1
       have h2 := RecordNetworkLatency_pair_sr (s.RecordNetworkLatency e1 b1)
          e2 b2 off2 e1.timestamp ho2 hfind2 hB)
    | (have hfind2 : mapFind (s.RecordNetworkLatency e1 b1).packet_sent_times
          (StatsEventSubscriber.packetKey e2) =
            some (e1.timestamp, PACKET_RECEIVED) := by
          rw [hk2, ← hA]
          exact hfind1
       have h2 := RecordNetworkLatency_pair_rs (s.RecordNetworkLatency e1 b1)
          e2 b2 off2 e1.timestamp ho2 hfind2 hB)
    have hfindgone : mapFind ((s.RecordNetworkLatency
        e1 b1).RecordNetworkLatency e2 b2).packet_sent_times
        (StatsEventSubscriber.packetKey e1) = none := by
      rw [h2]
      show mapFind (mapErase (s.RecordNetworkLatency e1 b1).packet_sent_times
        (StatsEventSubscriber.packetKey e2)) _ = none
      rw [← hk2]
      exact mapFind_erase _ _
    have hlen2 : ((s.RecordNetworkLatency e1 b1).RecordNetworkLatency
        e2 b2).packet_sent_times.length < kMaxPacketEventTimeMapSize := by
      rw [h2]
      show (mapErase (s.RecordNetworkLatency e1 b1).packet_sent_times
        (StatsEventSubscriber.packetKey e2)).length < _
      have := length_mapErase_lt _ _ _ hfind2
      omega
    have hfresh3 : mapFind ((s.RecordNetworkLatency
        e1 b1).RecordNetworkLatency e2 b2).packet_sent_times
        (StatsEventSubscriber.packetKey e3) = none := by
      rw [hk3]
      exact hfindgone
    have h3 := RecordNetworkLatency_store _ e3 b3 off3 ho3 hfresh3 hlen2
    refine ⟨hfind1, by rw [h1], by rw [h2, h1], ?_, ?_, hfindgone, ?_, ?_, ?_⟩
    · intro hA2 hB2
      first
      | exact ⟨by rw [h2, h1], by rw [h2, h1]; rfl⟩
      | exact ⟨by rw [h2, h1]; rfl, by rw [h2, h1]; rfl⟩
      | (rw [hA] at hA2; exact absurd hA2 (by decide))
      | (rw [hB] at hB2; exact absurd hB2 (by decide))
    · intro hA2 hB2
      first
      | exact ⟨by rw [h2, h1], by rw [h2, h1]; rfl⟩
      | exact ⟨by rw [h2, h1]; rfl, by rw [h2, h1]; rfl⟩
      | (rw [hA] at hA2; exact absurd hA2 (by decide))
      | (rw [hB] at hB2; exact absurd hB2 (by decide))
    · rw [h3, hk3]
      exact mapFind_insert_self _ _ _ (by rw [← hk3]; exact hfresh3)
    · rw [h3]
    · intro e4 b4 off4 hk4 ho4 hty4
      have hfind4 : mapFind (s.RecordNetworkLatency e1 b1).packet_sent_times
          (StatsEventSubscriber.packetKey e4) =
            some (e1.timestamp, e1.type) := by
        rw [hk4]
        exact hfind1
      exact RecordNetworkLatency_nomatch _ e4 b4 off4 e1.timestamp e1.type
        ho4 hfind4 (by simp [hA, hty4])
  }

/-- Witness for `RecordNetworkLatency_pairing` on a fresh engine and the
concrete packet `(7, 2)` sent at `3` and received at `8`. -/
theorem RecordNetworkLatency_pairing_witness :
    (((StatsEventSubscriber.init VIDEO_EVENT 0).RecordNetworkLatency
        packetSentEvent (some (0, 0))).RecordNetworkLatency
      packetReceivedEvent (some (0, 0))).network_latency_datapoints =
      (StatsEventSubscriber.init VIDEO_EVENT 0).network_latency_datapoints +
        1 :=
  (RecordNetworkLatency_pairing (StatsEventSubscriber.init VIDEO_EVENT 0) packetSentEvent
    packetReceivedEvent packetSentEvent (some (0, 0)) (some (0, 0))
    (some (0, 0)) 0 0 0 rfl rfl rfl rfl rfl rfl (by decide)
    (Or.inl ⟨rfl, rfl⟩)).2.2.1

/-! ## C8 / C9: `Reset` and the packet-loss snapshot -/

theorem SimpleHistogram.Reset_eq_mk (h : SimpleHistogram)
    (hs : h.shape =
      (mkSimpleHistogram 0 kMaxLatencyBucketMs kBucketWidthMs).shape) :
    h.Reset = mkSimpleHistogram 0 kMaxLatencyBucketMs kBucketWidthMs := by
  have h42 : (mkSimpleHistogram 0 kMaxLatencyBucketMs kBucketWidthMs).shape =
      (0, kMaxLatencyBucketMs, kBucketWidthMs, 42) := by decide
  rw [h42] at hs
  have hsh : h.min = 0 ∧ h.max = kMaxLatencyBucketMs ∧
      h.width = kBucketWidthMs ∧ h.buckets.length = 42 := by
    simpa [SimpleHistogram.shape, Prod.ext_iff] using hs
  obtain ⟨h1, h2, h3, h4⟩ := hsh
  unfold SimpleHistogram.Reset
  rw [h4, h1, h2, h3]
  decide

theorem Histograms.ResetAll_eq_init (H : Histograms)
    (hs : H.shapes = InitHistograms.shapes) : H.ResetAll = InitHistograms := by
  have hsh : H.capture_latency.shape =
        (mkSimpleHistogram 0 kMaxLatencyBucketMs kBucketWidthMs).shape ∧
      H.encode_latency.shape =
        (mkSimpleHistogram 0 kMaxLatencyBucketMs kBucketWidthMs).shape ∧
      H.packet_latency.shape =
        (mkSimpleHistogram 0 kMaxLatencyBucketMs kBucketWidthMs).shape ∧
      H.frame_latency.shape =
        (mkSimpleHistogram 0 kMaxLatencyBucketMs kBucketWidthMs).shape ∧
      H.playout_delay.shape =
        (mkSimpleHistogram 0 kMaxLatencyBucketMs kBucketWidthMs).shape := by
    simpa [Histograms.shapes, InitHistograms, Prod.ext_iff] using hs
  unfold Histograms.ResetAll InitHistograms
  rw [SimpleHistogram.Reset_eq_mk _ hsh.1, SimpleHistogram.Reset_eq_mk _ hsh.2.1,
    SimpleHistogram.Reset_eq_mk _ hsh.2.2.1,
    SimpleHistogram.Reset_eq_mk _ hsh.2.2.2.1,
    SimpleHistogram.Reset_eq_mk _ hsh.2.2.2.2]

/-- C8: after any event sequence `es` starting from a fresh engine, `Reset`
restores the engine exactly to `init mt t` (the freshly constructed engine
re-anchored at the reset instant `t`): all counters, totals and maps are
cleared, the histograms are returned to `InitHistograms` — which in
particular preserves every histogram's `(min, max, width, bucket count)`
shape while zeroing the buckets — and feeding any further event sequence
`es'` to the reset engine yields exactly the same state (hence the same
snapshot statistics) as feeding it to a freshly constructed engine. -/
theorem Reset_fresh_equiv (M : Nat) (mt : EventMediaType) (t0 t : Int)
    (es es' : List EvIn) :
    (runEvents M (StatsEventSubscriber.init mt t0) es).Reset t =
      StatsEventSubscriber.init mt t ∧
    ((runEvents M (StatsEventSubscriber.init mt t0) es).Reset t).histograms =
      InitHistograms ∧
    ((runEvents M (StatsEventSubscriber.init mt t0)
        es).Reset t).histograms.shapes =
      (runEvents M (StatsEventSubscriber.init mt t0) es).histograms.shapes ∧
    (∀ ev, ((runEvents M (StatsEventSubscriber.init mt t0)
      es).Reset t).frame_stats ev = none) ∧
    (∀ ev, ((runEvents M (StatsEventSubscriber.init mt t0)
      es).Reset t).packet_stats ev = none) ∧
    ((runEvents M (StatsEventSubscriber.init mt t0)
      es).Reset t).num_frames_dropped_by_encoder = 0 ∧
    ((runEvents M (StatsEventSubscriber.init mt t0)
      es).Reset t).num_frames_late = 0 ∧
    runEvents M ((runEvents M (StatsEventSubscriber.init mt t0) es).Reset t)
      es' = runEvents M (StatsEventSubscriber.init mt t) es' := by
  have hcore := runEvents_core M es (StatsEventSubscriber.init mt t0)
  have hemt : (runEvents M (StatsEventSubscriber.init mt t0)
      es).event_media_type = mt := hcore.1
  have hsh : (runEvents M (StatsEventSubscriber.init mt t0)
      es).histograms.shapes = InitHistograms.shapes := hcore.2.1
  have hra : (runEvents M (StatsEventSubscriber.init mt t0)
      es).histograms.ResetAll = InitHistograms :=
    Histograms.ResetAll_eq_init _ hsh
  have hmain : (runEvents M (StatsEventSubscriber.init mt t0) es).Reset t =
      StatsEventSubscriber.init mt t := by
    unfold StatsEventSubscriber.Reset
    rw [hra, hemt]
    rfl
  refine ⟨hmain, ?_, ?_, ?_, ?_, ?_, ?_, ?_⟩
  · rw [hmain]
    rfl
  · rw [hmain]
    show InitHistograms.shapes = _
    rw [hsh]
  · intro ev
    rw [hmain]
    rfl
  · intro ev
    rw [hmain]
    rfl
  · rw [hmain]
    rfl
  · rw [hmain]
    rfl
  · rw [hmain]

theorem init_packetStatsPos (mt : EventMediaType) (t0 : Int) :
    PacketStatsPos (StatsEventSubscriber.init mt t0) := by
  intro ty st hst
  simp [StatsEventSubscriber.init] at hst

/-- C9: in any state reached from a fresh engine,
`PopulatePacketLossPercentageStat` emits no statistic exactly when no
`PACKET_SENT_TO_NETWORK` counter entry exists; when an entry exists its
counter is at least `1` (so the denominator is nonzero and no division by
zero is performed), the emitted value is exactly
`retransmitted / (sent + retransmitted)`, and it lies in `[0, 1]`. -/
theorem PopulatePacketLossPercentageStat_spec (M : Nat)
    (mt : EventMediaType) (t0 : Int) (es : List EvIn) :
    ((runEvents M (StatsEventSubscriber.init mt t0)
        es).PopulatePacketLossPercentageStat = none ↔
      (runEvents M (StatsEventSubscriber.init mt t0) es).packet_stats
        PACKET_SENT_TO_NETWORK = none) ∧
    (∀ st, (runEvents M (StatsEventSubscriber.init mt t0) es).packet_stats
        PACKET_SENT_TO_NETWORK = some st →
      1 ≤ st.event_counter ∧
      (runEvents M (StatsEventSubscriber.init mt t0)
          es).PopulatePacketLossPercentageStat =
        some (((runEvents M (StatsEventSubscriber.init mt t0)
            es).retransmittedCount : ℚ) /
          ((st.event_counter : ℚ) +
            ((runEvents M (StatsEventSubscriber.init mt t0)
              es).retransmittedCount : ℚ))) ∧
      (∀ q, (runEvents M (StatsEventSubscriber.init mt t0)
          es).PopulatePacketLossPercentageStat = some q →
        0 ≤ q ∧ q ≤ 1)) := by
  have hpos := (runEvents_core M es (StatsEventSubscriber.init mt t0)).2.2
    (init_packetStatsPos mt t0)
  constructor
  · unfold StatsEventSubscriber.PopulatePacketLossPercentageStat
    cases hps : (runEvents M (StatsEventSubscriber.init mt t0) es).packet_stats
        PACKET_SENT_TO_NETWORK with
    | none => simp
    | some st => simp
  · intro st hst
    have hc : 1 ≤ st.event_counter := hpos _ st hst
    have hform : (runEvents M (StatsEventSubscriber.init mt t0)
        es).PopulatePacketLossPercentageStat =
        some (((runEvents M (StatsEventSubscriber.init mt t0)
            es).retransmittedCount : ℚ) /
          ((st.event_counter : ℚ) +
            ((runEvents M (StatsEventSubscriber.init mt t0)
              es).retransmittedCount : ℚ))) := by
      unfold StatsEventSubscriber.PopulatePacketLossPercentageStat
      rw [hst]
    refine ⟨hc, hform, ?_⟩
    intro q hq
    rw [hform] at hq
    have hq' : ((runEvents M (StatsEventSubscriber.init mt t0)
        es).retransmittedCount : ℚ) /
        ((st.event_counter : ℚ) +
          ((runEvents M (StatsEventSubscriber.init mt t0)
            es).retransmittedCount : ℚ)) = q := by
      simpa using hq
    have hcq : (1 : ℚ) ≤ (st.event_counter : ℚ) := by exact_mod_cast hc
    have hrq : (0 : ℚ) ≤ ((runEvents M (StatsEventSubscriber.init mt t0)
        es).retransmittedCount : ℚ) := by positivity
    rw [← hq']
    constructor
    · apply div_nonneg hrq
      linarith
    · rw [div_le_one (by linarith)]
      linarith

/-- C9 witness: after a single sent-to-network packet event the packet-loss
statistic is emitted, equals `0 / (1 + 0) = 0`, and lies in `[0, 1]`. -/
theorem PopulatePacketLossPercentageStat_spec_witness :
    (runEvents 100 (StatsEventSubscriber.init VIDEO_EVENT 0)
        [EvIn.pk packetSentEvent none]).PopulatePacketLossPercentageStat =
      some 0 ∧ (0 : ℚ) ≤ 0 ∧ (0 : ℚ) ≤ 1 := by
  have h := (PopulatePacketLossPercentageStat_spec 100 VIDEO_EVENT 0
    [EvIn.pk packetSentEvent none]).2
    { event_counter := 1, sum_size := 100 } (by rfl)
  refine ⟨?_, le_refl 0, by norm_num⟩
  rw [h.2.1]
  have hr : (runEvents 100 (StatsEventSubscriber.init VIDEO_EVENT 0)
      [EvIn.pk packetSentEvent none]).retransmittedCount = 0 := rfl
  rw [hr]
  norm_num

end MediaCast
